import Mathlib

/-
  Verification of the ATLAS STRAT core against its specification.

  Shallow embedding of:
    - src/core/analyzer.py   (STRATAnalyzer: bar classification, pattern
      detectors, deduplication, confidence scoring)
    - src/trading/strat_signals.py (STRATSignalGenerator: classification,
      TFC scoring, signal creation, signal cleaning)
    - src/core/components.py (PivotDetector, PatternStateMachine)

  Prices and volumes are modelled as rationals; timestamps as naturals
  (the bar index); pandas Series/DataFrames as lists.  Fallible access
  (df.iloc out of range, try/except returning None) is modelled with
  Option.
-/

namespace Atlas

/-- One OHLCV bar (a row of the pandas DataFrames used throughout the
repository).  `open_` is the open price (`open` is a Lean keyword). -/
structure Bar where
  open_ : ℚ
  high : ℚ
  low : ℚ
  close : ℚ
  volume : ℚ
deriving DecidableEq, Repr

/-- One iteration of the classification loop of
`STRATAnalyzer.classify_bars` (src/core/analyzer.py lines 172-195):
given the governing range `(gh, gl)` and the current bar, returns the
classification together with the updated governing range.  The final
`(0, gh, gl)` arm mirrors the Python fallthrough (the classifications
array is initialised to 0 and the range is left untouched when no branch
fires). -/
def classifyStep (gh gl : ℚ) (b : Bar) : Int × ℚ × ℚ :=
  if b.high ≤ gh ∧ b.low ≥ gl then (1, gh, gl)
  else if b.high > gh ∧ b.low < gl then (3, b.high, b.low)
  else if b.high > gh then (2, b.high, b.low)
  else if b.low < gl then (-2, b.high, b.low)
  else (0, gh, gl)

/-- The loop of `STRATAnalyzer.classify_bars` over bars 1..n-1, threading
the governing range. -/
def classifyAux (gh gl : ℚ) : List Bar → List Int
  | [] => []
  | b :: rest =>
    let r := classifyStep gh gl b
    r.1 :: classifyAux r.2.1 r.2.2 rest

/-- `STRATAnalyzer.classify_bars` (src/core/analyzer.py lines 137-212):
series of length < 2 yield an empty classification; otherwise the first
bar gets the marker -999 and the remaining bars are classified against
the governing range initialised from bar 0. -/
def classify_bars (df : List Bar) : List Int :=
  if df.length < 2 then []
  else
    match df with
    | [] => []
    | b0 :: rest => -999 :: classifyAux b0.high b0.low rest

/-- One iteration of the classification loop of
`STRATSignalGenerator._classify_bars` (src/trading/strat_signals.py lines
227-249).  Kept as a separate definition because the claim compares the
two implementations. -/
def genClassifyStep (gh gl : ℚ) (b : Bar) : Int × ℚ × ℚ :=
  if b.high ≤ gh ∧ b.low ≥ gl then (1, gh, gl)
  else if b.high > gh ∧ b.low < gl then (3, b.high, b.low)
  else if b.high > gh then (2, b.high, b.low)
  else if b.low < gl then (-2, b.high, b.low)
  else (0, gh, gl)

/-- The loop of `STRATSignalGenerator._classify_bars`. -/
def genClassifyAux (gh gl : ℚ) : List Bar → List Int
  | [] => []
  | b :: rest =>
    let r := genClassifyStep gh gl b
    r.1 :: genClassifyAux r.2.1 r.2.2 rest

/-- `STRATSignalGenerator._classify_bars` (src/trading/strat_signals.py
lines 208-251): series of length < 2 yield an all-zero series of the same
length; otherwise index 0 stays 0 and the rest is classified with the
governing-range loop. -/
def generator_classify_bars (data : List Bar) : List Int :=
  if data.length < 2 then List.replicate data.length 0
  else
    match data with
    | [] => []
    | b0 :: rest => 0 :: genClassifyAux b0.high b0.low rest

/-- Classification trace: for each classified bar, the classification
together with the governing range before and after processing the bar.
`classifyTrace gh gl bars` corresponds to running the
`STRATAnalyzer.classify_bars` loop on `bars` with initial range
`(gh, gl)`. -/
structure StepTrace where
  cls : Int
  beforeHigh : ℚ
  beforeLow : ℚ
  afterHigh : ℚ
  afterLow : ℚ
deriving DecidableEq, Repr

/-- The classification loop, instrumented with the governing range before
and after each bar. -/
def classifyTrace (gh gl : ℚ) : List Bar → List StepTrace
  | [] => []
  | b :: rest =>
    let r := classifyStep gh gl b
    ⟨r.1, gh, gl, r.2.1, r.2.2⟩ :: classifyTrace r.2.1 r.2.2 rest

theorem classifyAux_eq_trace (bars : List Bar) : ∀ gh gl : ℚ,
    classifyAux gh gl bars = (classifyTrace gh gl bars).map StepTrace.cls := by
  induction bars with
  | nil => intro gh gl; rfl
  | cons b rest ih =>
    intro gh gl
    simp only [classifyAux, classifyTrace, List.map]
    exact congrArg _ (ih _ _)

/-- Each trace entry is produced by `classifyStep` from its own recorded
before-range and the corresponding bar. -/
theorem classifyTrace_spec (bars : List Bar) : ∀ (gh gl : ℚ) (k : Nat)
    (bar : Bar) (e : StepTrace),
    bars.get? k = some bar →
    (classifyTrace gh gl bars).get? k = some e →
    e.cls = (classifyStep e.beforeHigh e.beforeLow bar).1 ∧
    e.afterHigh = (classifyStep e.beforeHigh e.beforeLow bar).2.1 ∧
    e.afterLow = (classifyStep e.beforeHigh e.beforeLow bar).2.2 := by
  induction bars with
  | nil => intro gh gl k bar e h1 h2; simp [List.get?] at h1
  | cons b rest ih =>
    intro gh gl k bar e h1 h2
    cases k with
    | zero =>
      simp only [List.get?] at h1 h2
      cases h1; cases h2
      exact ⟨rfl, rfl, rfl⟩
    | succ k =>
      simp only [List.get?, classifyTrace] at h1 h2
      exact ih _ _ k bar e h1 h2

/-- Consecutive trace entries chain: the governing range before a bar is
the governing range after the previous bar. -/
theorem classifyTrace_chain (bars : List Bar) : ∀ (gh gl : ℚ) (k : Nat)
    (e e2 : StepTrace),
    (classifyTrace gh gl bars).get? k = some e →
    (classifyTrace gh gl bars).get? (k + 1) = some e2 →
    e2.beforeHigh = e.afterHigh ∧ e2.beforeLow = e.afterLow := by
  induction bars with
  | nil => intro gh gl k e e2 h1 h2; simp [classifyTrace, List.get?] at h1
  | cons b rest ih =>
    intro gh gl k e e2 h1 h2
    cases k with
    | zero =>
      simp only [List.get?, classifyTrace] at h1 h2
      cases h1
      cases rest with
      | nil => simp [classifyTrace, List.get?] at h2
      | cons b2 rest2 =>
        simp only [classifyTrace, List.get?] at h2
        cases h2
        exact ⟨rfl, rfl⟩
    | succ k =>
      simp only [List.get?, classifyTrace] at h1 h2
      exact ih _ _ k e e2 h1 h2

/-- The head trace entry starts from the initial governing range. -/
theorem classifyTrace_head (b : Bar) (rest : List Bar) (gh gl : ℚ)
    (e : StepTrace) (h : (classifyTrace gh gl (b :: rest)).get? 0 = some e) :
    e.beforeHigh = gh ∧ e.beforeLow = gl := by
  simp only [classifyTrace, List.get?] at h
  cases h
  exact ⟨rfl, rfl⟩

theorem classifyStep_inside_iff (gh gl : ℚ) (b : Bar) :
    (classifyStep gh gl b).1 = 1 ↔ b.high ≤ gh ∧ b.low ≥ gl := by
  unfold classifyStep
  split_ifs with h1 h2 h3 h4
  · simp [h1]
  · push_neg at h1; simpa using h1
  · push_neg at h1; simpa using h1
  · push_neg at h1; simpa using h1
  · push_neg at h1 h3 h4
    constructor
    · intro h; exact absurd h (show (0 : Int) ≠ 1 by decide)
    · intro h; exact absurd (h1 h.1) (not_lt.mpr h.2)

theorem classifyStep_inside_range (gh gl : ℚ) (b : Bar)
    (h : (classifyStep gh gl b).1 = 1) :
    (classifyStep gh gl b).2.1 = gh ∧ (classifyStep gh gl b).2.2 = gl := by
  by_cases h1 : b.high ≤ gh ∧ b.low ≥ gl
  · unfold classifyStep
    rw [if_pos h1]
    exact ⟨rfl, rfl⟩
  · exact absurd ((classifyStep_inside_iff gh gl b).mp h) h1

theorem classifyStep_update_range (gh gl : ℚ) (b : Bar)
    (h : (classifyStep gh gl b).1 ≠ 1) :
    (classifyStep gh gl b).2.1 = b.high ∧ (classifyStep gh gl b).2.2 = b.low := by
  by_cases h1 : b.high ≤ gh ∧ b.low ≥ gl
  · exact absurd ((classifyStep_inside_iff gh gl b).mpr h1) h
  · unfold classifyStep
    rw [if_neg h1]
    by_cases h2 : b.high > gh ∧ b.low < gl
    · rw [if_pos h2]; exact ⟨rfl, rfl⟩
    · rw [if_neg h2]
      by_cases h3 : b.high > gh
      · rw [if_pos h3]; exact ⟨rfl, rfl⟩
      · rw [if_neg h3]
        by_cases h4 : b.low < gl
        · rw [if_pos h4]; exact ⟨rfl, rfl⟩
        · exfalso
          push_neg at h1 h3 h4
          exact absurd (h1 h3) (not_lt.mpr h4)

/-- C1.  For a bar series of length ≥ 2 and a classified index i = k+1 ≥ 1:
the bar is classified Inside (1) exactly when its high and low are
contained in the governing range recorded before processing it, the range
is unchanged when the classification is Inside, and it is set to the
bar's own high/low when the classification is not Inside.  The trace
agrees with `STRATAnalyzer.classify_bars` at index k+1. -/
theorem bar_classifier_governing_invariant (b0 : Bar) (rest : List Bar)
    (k : Nat) (bar : Bar) (e : StepTrace)
    (hbar : rest.get? k = some bar)
    (he : (classifyTrace b0.high b0.low rest).get? k = some e) :
    (classify_bars (b0 :: rest)).get? (k + 1) = some e.cls ∧
    (e.cls = 1 ↔ bar.high ≤ e.beforeHigh ∧ bar.low ≥ e.beforeLow) ∧
    (e.cls = 1 → e.afterHigh = e.beforeHigh ∧ e.afterLow = e.beforeLow) ∧
    (e.cls ≠ 1 → e.afterHigh = bar.high ∧ e.afterLow = bar.low) := by
  obtain ⟨hc, hah, hal⟩ := classifyTrace_spec rest b0.high b0.low k bar e hbar he
  have hrest : rest ≠ [] := by
    intro h; subst h; simp [List.get?] at hbar
  have hlen : ¬ (b0 :: rest).length < 2 := by
    cases rest with
    | nil => exact absurd rfl hrest
    | cons x xs => simp only [List.length_cons]; omega
  constructor
  · unfold classify_bars
    rw [if_neg hlen]
    simp only [List.get?]
    rw [classifyAux_eq_trace, List.get?_map, he]
    rfl
  refine ⟨?_, ?_, ?_⟩
  · rw [hc]; exact classifyStep_inside_iff _ _ _
  · intro h1
    rw [hc] at h1
    obtain ⟨ha, hb⟩ := classifyStep_inside_range _ _ _ h1
    rw [hah, hal]; exact ⟨ha, hb⟩
  · intro h1
    rw [hc] at h1
    obtain ⟨ha, hb⟩ := classifyStep_update_range _ _ _ h1
    rw [hah, hal]; exact ⟨ha, hb⟩

/-- Concrete series used for witnesses: the worked example of spec §8. -/
def specExampleBars : List Bar :=
  [⟨100, 100, 95, 100, 1000⟩,
   ⟨100, 103, 97, 102, 1000⟩,
   ⟨102, 101, 98, 100, 1000⟩,
   ⟨100, 105, 96, 104, 1000⟩]

theorem bar_classifier_governing_invariant_witness :
    ([⟨100, 103, 97, 102, 1000⟩, ⟨102, 101, 98, 100, 1000⟩,
      ⟨100, 105, 96, 104, 1000⟩] : List Bar).get? 1 =
        some ⟨102, 101, 98, 100, 1000⟩ ∧
    (classifyTrace 100 95 [⟨100, 103, 97, 102, 1000⟩,
      ⟨102, 101, 98, 100, 1000⟩, ⟨100, 105, 96, 104, 1000⟩]).get? 1 =
        some ⟨1, 103, 97, 103, 97⟩ ∧
    (classify_bars specExampleBars).get? 2 = some (1 : Int) := by
  refine ⟨by decide, by decide, ?_⟩
  have h := bar_classifier_governing_invariant ⟨100, 100, 95, 100, 1000⟩
    [⟨100, 103, 97, 102, 1000⟩, ⟨102, 101, 98, 100, 1000⟩,
     ⟨100, 105, 96, 104, 1000⟩] 1 ⟨102, 101, 98, 100, 1000⟩
    ⟨1, 103, 97, 103, 97⟩ (by decide) (by decide)
  exact h.1

/-- C10.  The two classifier implementations agree at every index ≥ 1. -/
theorem classifier_implementations_agree (df : List Bar) (i : Nat)
    (hi : 1 ≤ i) :
    (classify_bars df).get? i = (generator_classify_bars df).get? i := by
  have hstep : ∀ gh gl b, genClassifyStep gh gl b = classifyStep gh gl b := by
    intro gh gl b; rfl
  have haux : ∀ bars gh gl, genClassifyAux gh gl bars = classifyAux gh gl bars := by
    intro bars
    induction bars with
    | nil => intro gh gl; rfl
    | cons b rest ih =>
      intro gh gl
      simp only [genClassifyAux, classifyAux, hstep]
      exact congrArg _ (ih _ _)
  by_cases h2 : df.length < 2
  · unfold classify_bars generator_classify_bars
    rw [if_pos h2, if_pos h2]
    have h1 : (List.replicate df.length (0 : Int)).get? i = none := by
      apply List.get?_eq_none.mpr
      simp only [List.length_replicate]
      omega
    have h0 : (([] : List Int)).get? i = none := by cases i <;> rfl
    rw [h0, h1]
  · unfold classify_bars generator_classify_bars
    rw [if_neg h2, if_neg h2]
    match df with
    | [] => rfl
    | b0 :: rest =>
      obtain ⟨j, rfl⟩ : ∃ j, i = j + 1 := ⟨i - 1, by omega⟩
      simp only [List.get?]
      rw [haux]

theorem classifier_implementations_agree_witness :
    (classify_bars specExampleBars).get? 1 =
      (generator_classify_bars specExampleBars).get? 1 ∧
    (classify_bars specExampleBars).get? 1 = some (2 : Int) :=
  ⟨classifier_implementations_agree specExampleBars 1 (by decide), by decide⟩

end Atlas

namespace Atlas

/-!  Signal cleaning (`clean_strat_signals_nb`, src/trading/strat_signals.py
lines 39-87), single column. -/

/-- One row of boolean entry/exit flags, in the order of the four arrays
passed to `clean_strat_signals_nb`. -/
structure SignalFlags where
  long_en : Bool
  long_ex : Bool
  short_en : Bool
  short_ex : Bool
deriving DecidableEq, Repr

/-- One iteration of the cleaning loop: given the current position
(0 = flat, 1 = long, -1 = short) and the raw flags of one bar, returns
the cleaned flags of that bar and the new position. -/
def cleanStep (position : Int) (f : SignalFlags) : SignalFlags × Int :=
  if f.long_en = true ∧ position ≠ 1 then (⟨true, false, false, false⟩, 1)
  else if f.short_en = true ∧ position ≠ -1 then (⟨false, false, true, false⟩, -1)
  else if f.long_ex = true ∧ position = 1 then (⟨false, true, false, false⟩, 0)
  else if f.short_ex = true ∧ position = -1 then (⟨false, false, false, true⟩, 0)
  else (⟨false, false, false, false⟩, position)

/-- The cleaning loop over all bars of one column. -/
def cleanAux (position : Int) : List SignalFlags → List SignalFlags
  | [] => []
  | f :: rest =>
    let r := cleanStep position f
    r.1 :: cleanAux r.2 rest

/-- `clean_strat_signals_nb` on one column, starting flat. -/
def clean_strat_signals (flags : List SignalFlags) : List SignalFlags :=
  cleanAux 0 flags

/-- The position state implied by a stream of entry/exit flags, one step:
an entry flag puts the position on that side (an opposite-direction entry
reverses the prior position, which is how the downstream backtester
consumes these arrays), an exit flag returns to flat, otherwise the
position is unchanged. -/
def impliedStep (position : Int) (f : SignalFlags) : Int :=
  if f.long_en = true then 1
  else if f.short_en = true then -1
  else if f.long_ex = true then 0
  else if f.short_ex = true then 0
  else position

/-- Position after each bar when replaying a flag stream from the given
start position. -/
def impliedPositions (position : Int) : List SignalFlags → List Int
  | [] => []
  | f :: rest =>
    let p := impliedStep position f
    p :: impliedPositions p rest

/-- Cleaning trace: cleaned flags of each bar together with the position
before and after the bar. -/
structure CleanTrace where
  flags : SignalFlags
  posBefore : Int
  posAfter : Int
deriving DecidableEq, Repr

/-- The cleaning loop, instrumented with the position before/after. -/
def cleanTrace (position : Int) : List SignalFlags → List CleanTrace
  | [] => []
  | f :: rest =>
    let r := cleanStep position f
    ⟨r.1, position, r.2⟩ :: cleanTrace r.2 rest

theorem cleanAux_eq_trace (flags : List SignalFlags) : ∀ position : Int,
    cleanAux position flags = (cleanTrace position flags).map CleanTrace.flags := by
  induction flags with
  | nil => intro position; rfl
  | cons f rest ih =>
    intro position
    simp only [cleanAux, cleanTrace, List.map]
    exact congrArg _ (ih _)

/-- Cleaned flags fire only in the legal position: an emitted exit flag
implies the matching open position, an emitted entry flag implies the
position was not already on that side. -/
theorem cleanStep_flags_legal (position : Int) (f : SignalFlags) :
    ((cleanStep position f).1.long_ex = true → position = 1) ∧
    ((cleanStep position f).1.short_ex = true → position = -1) ∧
    ((cleanStep position f).1.long_en = true → position ≠ 1) ∧
    ((cleanStep position f).1.short_en = true → position ≠ -1) := by
  unfold cleanStep
  split_ifs with h1 h2 h3 h4
  · exact ⟨fun h => absurd h (by decide), fun h => absurd h (by decide),
      fun _ => h1.2, fun h => absurd h (by decide)⟩
  · exact ⟨fun h => absurd h (by decide), fun h => absurd h (by decide),
      fun h => absurd h (by decide), fun _ => h2.2⟩
  · exact ⟨fun _ => h3.2, fun h => absurd h (by decide),
      fun h => absurd h (by decide), fun h => absurd h (by decide)⟩
  · exact ⟨fun h => absurd h (by decide), fun _ => h4.2,
      fun h => absurd h (by decide), fun h => absurd h (by decide)⟩
  · exact ⟨fun h => absurd h (by decide), fun h => absurd h (by decide),
      fun h => absurd h (by decide), fun h => absurd h (by decide)⟩

/-- Replaying the cleaned flags of one step recovers the cleaner's own
position update. -/
theorem impliedStep_cleanStep (position : Int) (f : SignalFlags) :
    impliedStep position (cleanStep position f).1 = (cleanStep position f).2 := by
  unfold cleanStep impliedStep
  split_ifs with h1 h2 h3 h4 <;> simp_all

theorem impliedPositions_cleanAux (flags : List SignalFlags) : ∀ position : Int,
    impliedPositions position (cleanAux position flags) =
      (cleanTrace position flags).map CleanTrace.posAfter := by
  induction flags with
  | nil => intro position; rfl
  | cons f rest ih =>
    intro position
    simp only [cleanAux, cleanTrace, List.map, impliedPositions,
      impliedStep_cleanStep]
    exact congrArg _ (ih _)

theorem cleanTrace_spec (flags : List SignalFlags) : ∀ (position : Int)
    (k : Nat) (e : CleanTrace),
    (cleanTrace position flags).get? k = some e →
    ∃ f, flags.get? k = some f ∧
      e.flags = (cleanStep e.posBefore f).1 ∧
      e.posAfter = (cleanStep e.posBefore f).2 := by
  induction flags with
  | nil => intro position k e h; simp [cleanTrace, List.get?] at h
  | cons f rest ih =>
    intro position k e h
    cases k with
    | zero =>
      simp only [cleanTrace, List.get?] at h
      cases h
      exact ⟨f, rfl, rfl, rfl⟩
    | succ k =>
      simp only [cleanTrace, List.get?] at h
      exact ih _ k e h

/-- C2.  After the cleaning pass, the position state implied by the
cleaned flags (replayed from flat) never has a long and a short position
active at the same bar, and every cleaned exit flag is set only while the
matching position is open (in particular never while flat); the trace
agrees with the executable `clean_strat_signals` and
`impliedPositions`. -/
theorem signal_cleaning_position_invariant (flags : List SignalFlags)
    (k : Nat) (e : CleanTrace)
    (he : (cleanTrace 0 flags).get? k = some e) :
    (clean_strat_signals flags).get? k = some e.flags ∧
    (impliedPositions 0 (clean_strat_signals flags)).get? k = some e.posAfter ∧
    ¬(e.posAfter = 1 ∧ e.posAfter = -1) ∧
    (e.flags.long_ex = true → e.posBefore = 1) ∧
    (e.flags.short_ex = true → e.posBefore = -1) ∧
    (e.flags.long_en = true → e.posBefore ≠ 1) ∧
    (e.flags.short_en = true → e.posBefore ≠ -1) := by
  obtain ⟨f, hf, hfl, hpa⟩ := cleanTrace_spec flags 0 k e he
  have legal := cleanStep_flags_legal e.posBefore f
  refine ⟨?_, ?_, ?_, ?_, ?_, ?_, ?_⟩
  · unfold clean_strat_signals
    rw [cleanAux_eq_trace, List.get?_map, he]
    rfl
  · unfold clean_strat_signals
    rw [impliedPositions_cleanAux, List.get?_map, he]
    rfl
  · rintro ⟨h1, h2⟩; rw [h1] at h2; exact absurd h2 (by decide)
  · intro h; exact legal.1 (hfl ▸ h)
  · intro h; exact legal.2.1 (hfl ▸ h)
  · intro h; exact legal.2.2.1 (hfl ▸ h)
  · intro h; exact legal.2.2.2 (hfl ▸ h)

theorem signal_cleaning_position_invariant_witness :
    (cleanTrace 0 [⟨true, false, false, false⟩, ⟨false, true, false, false⟩]).get? 1 =
      some ⟨⟨false, true, false, false⟩, 1, 0⟩ ∧
    (clean_strat_signals
      [⟨true, false, false, false⟩, ⟨false, true, false, false⟩]).get? 1 =
      some ⟨false, true, false, false⟩ := by
  refine ⟨by decide, ?_⟩
  have h := signal_cleaning_position_invariant
    [⟨true, false, false, false⟩, ⟨false, true, false, false⟩] 1
    ⟨⟨false, true, false, false⟩, 1, 0⟩ (by decide)
  exact h.1

end Atlas

namespace Atlas

/-!  Continuity (TFC) scoring
(`STRATSignalGenerator._calculate_daily_tfc_scores`,
src/trading/strat_signals.py lines 320-373). -/

/-- Number of timeframe classes equal to 2 (2U).  The source increments
`bullish_count` on `row[tf] == 2` inside the loop over the four
timeframe columns. -/
def bullishCount (codes : List Int) : Nat :=
  (codes.filter (fun c => decide (c = 2))).length

/-- Number of timeframe classes equal to -2 (2D). -/
def bearishCount (codes : List Int) : Nat :=
  (codes.filter (fun c => decide (c = -2))).length

/-- Per-daily-bar continuity record (the columns written at
src/trading/strat_signals.py lines 351-373). -/
structure TfcScore where
  direction : String
  alignment_count : Nat
  confidence : ℚ
  continuity_type : String
deriving DecidableEq, Repr

/-- The direction/alignment-count branch of
`_calculate_daily_tfc_scores` (lines 334-349). -/
def tfcDirectionCount (bullish_count bearish_count : Nat) : String × Nat :=
  if bullish_count > 0 ∧ bearish_count = 0 then ("bullish", bullish_count)
  else if bearish_count > 0 ∧ bullish_count = 0 then ("bearish", bearish_count)
  else if bullish_count > bearish_count then ("bullish_mixed", bullish_count)
  else if bearish_count > bullish_count then ("bearish_mixed", bearish_count)
  else ("neutral", 0)

/-- The confidence/continuity-type branch of
`_calculate_daily_tfc_scores` (lines 354-370). -/
def tfcConfidenceType (alignment_count : Nat) : ℚ × String :=
  if alignment_count = 4 then (0.95, "Full")
  else if alignment_count = 3 then (0.80, "Partial")
  else if alignment_count = 2 then (0.50, "Minimal")
  else if alignment_count = 1 then (0.25, "Weak")
  else (0.10, "None")

/-- The alignment/direction/confidence computation of
`_calculate_daily_tfc_scores` for one daily bar, given the four
timeframe classes (hourly aggregate, daily, weekly, monthly). -/
def calculateTfcScore (h1 d1 w1 m1 : Int) : TfcScore :=
  ⟨(tfcDirectionCount (bullishCount [h1, d1, w1, m1]) (bearishCount [h1, d1, w1, m1])).1,
   (tfcDirectionCount (bullishCount [h1, d1, w1, m1]) (bearishCount [h1, d1, w1, m1])).2,
   (tfcConfidenceType (tfcDirectionCount (bullishCount [h1, d1, w1, m1])
     (bearishCount [h1, d1, w1, m1])).2).1,
   (tfcConfidenceType (tfcDirectionCount (bullishCount [h1, d1, w1, m1])
     (bearishCount [h1, d1, w1, m1])).2).2⟩

theorem tfcDirectionCount_spec (b r : Nat) :
    (tfcDirectionCount b r).2 ≤ max b r ∧
    (b > 0 ∧ r = 0 → tfcDirectionCount b r = ("bullish", b)) ∧
    (r > 0 ∧ b = 0 → tfcDirectionCount b r = ("bearish", r)) ∧
    (b > r ∧ r > 0 → tfcDirectionCount b r = ("bullish_mixed", b)) ∧
    (r > b ∧ b > 0 → tfcDirectionCount b r = ("bearish_mixed", r)) ∧
    (b = r → tfcDirectionCount b r = ("neutral", 0)) := by
  unfold tfcDirectionCount
  split_ifs with g1 g2 g3 g4 <;>
    refine ⟨?_, ?_, ?_, ?_, ?_, ?_⟩ <;> simp_all <;> omega

theorem tfcConfidenceType_spec (n : Nat) :
    (n = 4 → (tfcConfidenceType n).1 = 0.95) ∧
    (n = 3 → (tfcConfidenceType n).1 = 0.80) ∧
    (n = 2 → (tfcConfidenceType n).1 = 0.50) ∧
    (n = 1 → (tfcConfidenceType n).1 = 0.25) ∧
    (n = 0 → (tfcConfidenceType n).1 = 0.10) := by
  unfold tfcConfidenceType
  split_ifs <;> refine ⟨?_, ?_, ?_, ?_, ?_⟩ <;> simp_all

theorem bullishCount_le_four (h1 d1 w1 m1 : Int) :
    bullishCount [h1, d1, w1, m1] ≤ 4 ∧ bearishCount [h1, d1, w1, m1] ≤ 4 := by
  constructor
  · calc bullishCount [h1, d1, w1, m1]
        ≤ ([h1, d1, w1, m1] : List Int).length := List.length_filter_le _ _
      _ = 4 := rfl
  · calc bearishCount [h1, d1, w1, m1]
        ≤ ([h1, d1, w1, m1] : List Int).length := List.length_filter_le _ _
      _ = 4 := rfl

theorem calculateTfcScore_count (h1 d1 w1 m1 : Int) :
    (calculateTfcScore h1 d1 w1 m1).alignment_count =
      (tfcDirectionCount (bullishCount [h1, d1, w1, m1])
        (bearishCount [h1, d1, w1, m1])).2 := rfl

theorem calculateTfcScore_count_le (h1 d1 w1 m1 : Int) :
    (calculateTfcScore h1 d1 w1 m1).alignment_count ≤ 4 := by
  obtain ⟨hb4, hr4⟩ := bullishCount_le_four h1 d1 w1 m1
  have hmax := (tfcDirectionCount_spec (bullishCount [h1, d1, w1, m1])
    (bearishCount [h1, d1, w1, m1])).1
  rw [calculateTfcScore_count]
  exact le_trans hmax (max_le hb4 hr4)

theorem calculateTfcScore_neutral_code (h1 d1 w1 m1 : Int)
    (hn2 : h1 ≠ 2) (hnm2 : h1 ≠ -2) :
    calculateTfcScore h1 d1 w1 m1 = calculateTfcScore 0 d1 w1 m1 := by
  have hb : bullishCount [h1, d1, w1, m1] = bullishCount [0, d1, w1, m1] := by
    simp [bullishCount, List.filter, hn2]
  have hr : bearishCount [h1, d1, w1, m1] = bearishCount [0, d1, w1, m1] := by
    simp [bearishCount, List.filter, hnm2]
  unfold calculateTfcScore
  rw [hb, hr]

theorem calculateTfcScore_dir (h1 d1 w1 m1 : Int) (s : String) (n : Nat)
    (hd : tfcDirectionCount (bullishCount [h1, d1, w1, m1])
      (bearishCount [h1, d1, w1, m1]) = (s, n)) :
    (calculateTfcScore h1 d1 w1 m1).direction = s ∧
    (calculateTfcScore h1 d1 w1 m1).alignment_count = n := by
  have hfd : (calculateTfcScore h1 d1 w1 m1).direction =
      (tfcDirectionCount (bullishCount [h1, d1, w1, m1])
        (bearishCount [h1, d1, w1, m1])).1 := rfl
  rw [hfd, calculateTfcScore_count, hd]
  exact ⟨rfl, rfl⟩

theorem calculateTfcScore_conf (h1 d1 w1 m1 : Int) :
    (calculateTfcScore h1 d1 w1 m1).confidence =
      (tfcConfidenceType ((calculateTfcScore h1 d1 w1 m1).alignment_count)).1 := rfl

/-- C3.  The continuity scorer: the alignment count is at most 4 and
counts only 2U/2D codes (a first code that is neither 2 nor -2 scores
exactly like the neutral code 0); the direction label is
bullish/bearish when the other side is absent, mixed when one side
merely outnumbers the other, neutral on a tie (count forced to 0); and
the confidence matches the tier table 4 ↦ 0.95, 3 ↦ 0.80, 2 ↦ 0.50,
1 ↦ 0.25, 0 ↦ 0.10. -/
theorem continuity_scorer_tier_table (h1 d1 w1 m1 : Int) :
    (calculateTfcScore h1 d1 w1 m1).alignment_count ≤ 4 ∧
    (h1 ≠ 2 ∧ h1 ≠ -2 →
      calculateTfcScore h1 d1 w1 m1 = calculateTfcScore 0 d1 w1 m1) ∧
    (bullishCount [h1, d1, w1, m1] > 0 ∧ bearishCount [h1, d1, w1, m1] = 0 →
      (calculateTfcScore h1 d1 w1 m1).direction = "bullish" ∧
      (calculateTfcScore h1 d1 w1 m1).alignment_count = bullishCount [h1, d1, w1, m1]) ∧
    (bearishCount [h1, d1, w1, m1] > 0 ∧ bullishCount [h1, d1, w1, m1] = 0 →
      (calculateTfcScore h1 d1 w1 m1).direction = "bearish" ∧
      (calculateTfcScore h1 d1 w1 m1).alignment_count = bearishCount [h1, d1, w1, m1]) ∧
    (bullishCount [h1, d1, w1, m1] > bearishCount [h1, d1, w1, m1] ∧
        bearishCount [h1, d1, w1, m1] > 0 →
      (calculateTfcScore h1 d1 w1 m1).direction = "bullish_mixed" ∧
      (calculateTfcScore h1 d1 w1 m1).alignment_count = bullishCount [h1, d1, w1, m1]) ∧
    (bearishCount [h1, d1, w1, m1] > bullishCount [h1, d1, w1, m1] ∧
        bullishCount [h1, d1, w1, m1] > 0 →
      (calculateTfcScore h1 d1 w1 m1).direction = "bearish_mixed" ∧
      (calculateTfcScore h1 d1 w1 m1).alignment_count = bearishCount [h1, d1, w1, m1]) ∧
    (bullishCount [h1, d1, w1, m1] = bearishCount [h1, d1, w1, m1] →
      (calculateTfcScore h1 d1 w1 m1).direction = "neutral" ∧
      (calculateTfcScore h1 d1 w1 m1).alignment_count = 0) ∧
    ((calculateTfcScore h1 d1 w1 m1).alignment_count = 4 →
      (calculateTfcScore h1 d1 w1 m1).confidence = 0.95) ∧
    ((calculateTfcScore h1 d1 w1 m1).alignment_count = 3 →
      (calculateTfcScore h1 d1 w1 m1).confidence = 0.80) ∧
    ((calculateTfcScore h1 d1 w1 m1).alignment_count = 2 →
      (calculateTfcScore h1 d1 w1 m1).confidence = 0.50) ∧
    ((calculateTfcScore h1 d1 w1 m1).alignment_count = 1 →
      (calculateTfcScore h1 d1 w1 m1).confidence = 0.25) ∧
    ((calculateTfcScore h1 d1 w1 m1).alignment_count = 0 →
      (calculateTfcScore h1 d1 w1 m1).confidence = 0.10) := by
  obtain ⟨hmax, hdir1, hdir2, hdir3, hdir4, hdir5⟩ :=
    tfcDirectionCount_spec (bullishCount [h1, d1, w1, m1]) (bearishCount [h1, d1, w1, m1])
  obtain ⟨hc4C, hc3C, hc2C, hc1C, hc0C⟩ :=
    tfcConfidenceType_spec ((calculateTfcScore h1 d1 w1 m1).alignment_count)
  refine ⟨calculateTfcScore_count_le h1 d1 w1 m1,
    fun h => calculateTfcScore_neutral_code h1 d1 w1 m1 h.1 h.2,
    fun h => calculateTfcScore_dir h1 d1 w1 m1 _ _ (hdir1 h),
    fun h => calculateTfcScore_dir h1 d1 w1 m1 _ _ (hdir2 h),
    fun h => calculateTfcScore_dir h1 d1 w1 m1 _ _ (hdir3 h),
    fun h => calculateTfcScore_dir h1 d1 w1 m1 _ _ (hdir4 h),
    fun h => calculateTfcScore_dir h1 d1 w1 m1 _ _ (hdir5 h),
    fun h => ?_, fun h => ?_, fun h => ?_, fun h => ?_, fun h => ?_⟩
  · rw [calculateTfcScore_conf]; exact hc4C h
  · rw [calculateTfcScore_conf]; exact hc3C h
  · rw [calculateTfcScore_conf]; exact hc2C h
  · rw [calculateTfcScore_conf]; exact hc1C h
  · rw [calculateTfcScore_conf]; exact hc0C h

theorem continuity_scorer_tier_table_witness :
    calculateTfcScore 2 2 (-2) 1 =
      ⟨"bullish_mixed", 2, 0.50, "Minimal"⟩ ∧
    (calculateTfcScore 2 2 (-2) 1).confidence = 0.50 := by
  constructor
  · rfl
  · have h := continuity_scorer_tier_table 2 2 (-2) 1
    exact h.2.2.2.2.2.2.2.2.2.1 rfl

end Atlas

namespace Atlas

/-!  Pattern lifecycle state machine (`PatternStateMachine`,
src/core/components.py lines 370-629). -/

/-- `PatternState` (src/core/components.py lines 370-378). -/
inductive PatternState where
  | scanning
  | pending
  | triggered
  | in_force
  | entered
  | complete
  | failed
deriving DecidableEq, Repr

/-- `PatternContext` (src/core/components.py lines 381-393).  Times are
modelled as naturals (`datetime.now()` becomes a caller-supplied tick). -/
structure PatternContext where
  pattern_type : String
  bars_seen : List Int
  inside_bar_idx : Option Nat
  direction : Option String
  entry_trigger : Option ℚ
  stop_level : Option ℚ
  targets : List ℚ
  trigger_time : Option Nat
  entry_price : Option ℚ
  entry_time : Option Nat
deriving DecidableEq, Repr

/-- The `patterns` dict of `PatternStateMachine`, as an association list
keyed by pattern id. -/
structure PatternStateMachine where
  patterns : List (Nat × PatternState × PatternContext)
  pattern_counter : Nat
deriving DecidableEq, Repr

/-- Dict assignment `self.patterns[pid] = v` for an existing key. -/
def setPattern (m : PatternStateMachine) (pid : Nat)
    (v : PatternState × PatternContext) : PatternStateMachine :=
  ⟨m.patterns.map (fun e => if e.1 = pid then (pid, v) else e), m.pattern_counter⟩

/-- `x >= y` against an optional level; comparing against a missing level
raises in the source and is modelled as false (unreachable for patterns
whose levels were set by `update_pattern`). -/
def geOpt (x : ℚ) (y : Option ℚ) : Bool :=
  match y with
  | some v => decide (x ≥ v)
  | none => false

/-- `x <= y` against an optional level. -/
def leOpt (x : ℚ) (y : Option ℚ) : Bool :=
  match y with
  | some v => decide (x ≤ v)
  | none => false

/-- `PatternStateMachine.check_trigger` (src/core/components.py lines
508-548): on a pattern not in state `triggered` it returns false and
leaves the machine unchanged; otherwise it promotes the pattern to
`in_force` when the bar crosses the entry trigger in the resolved
direction. -/
def check_trigger (m : PatternStateMachine) (pid : Nat)
    (current_high current_low : ℚ) (now : Nat) : Bool × PatternStateMachine :=
  match m.patterns.lookup pid with
  | none => (false, m)
  | some (state, context) =>
    if state ≠ PatternState.triggered then (false, m)
    else if context.direction = some "bullish" ∧
        geOpt current_high context.entry_trigger = true then
      (true, setPattern m pid
        (PatternState.in_force, { context with trigger_time := some now }))
    else if context.direction = some "bearish" ∧
        leOpt current_low context.entry_trigger = true then
      (true, setPattern m pid
        (PatternState.in_force, { context with trigger_time := some now }))
    else (false, m)

/-- `PatternStateMachine.enter_trade` (src/core/components.py lines
550-573). -/
def enter_trade (m : PatternStateMachine) (pid : Nat) (entry_price : ℚ)
    (now : Nat) : Bool × PatternStateMachine :=
  match m.patterns.lookup pid with
  | none => (false, m)
  | some (state, context) =>
    if state = PatternState.in_force then
      (true, setPattern m pid
        (PatternState.entered,
         { context with entry_price := some entry_price, entry_time := some now }))
    else (false, m)

/-- `PatternStateMachine.check_exit` (src/core/components.py lines
575-617). -/
def check_exit (m : PatternStateMachine) (pid : Nat)
    (current_high current_low : ℚ) : String × PatternStateMachine :=
  match m.patterns.lookup pid with
  | none => ("unknown", m)
  | some (state, context) =>
    if state ≠ PatternState.entered then ("not_entered", m)
    else if context.direction = some "bullish" ∧
        leOpt current_low context.stop_level = true then
      ("failed", setPattern m pid (PatternState.failed, context))
    else if context.direction = some "bearish" ∧
        geOpt current_high context.stop_level = true then
      ("failed", setPattern m pid (PatternState.failed, context))
    else
      match context.targets with
      | [] => ("active", m)
      | t :: _ =>
        if context.direction = some "bullish" ∧ current_high ≥ t then
          ("complete", setPattern m pid (PatternState.complete, context))
        else if context.direction = some "bearish" ∧ current_low ≤ t then
          ("complete", setPattern m pid (PatternState.complete, context))
        else ("active", m)

/-- C9.  On a tracked pattern in the wrong state, `check_trigger`,
`enter_trade` and `check_exit` return their explicit not-applicable
result (false, false, "not_entered") and leave the machine — every
pattern's state and context — unchanged. -/
theorem lifecycle_wrong_state_no_op (m : PatternStateMachine) (pid : Nat)
    (st : PatternState) (ctx : PatternContext)
    (hfound : m.patterns.lookup pid = some (st, ctx))
    (hi lo price : ℚ) (now : Nat) :
    (st ≠ PatternState.triggered → check_trigger m pid hi lo now = (false, m)) ∧
    (st ≠ PatternState.in_force → enter_trade m pid price now = (false, m)) ∧
    (st ≠ PatternState.entered → check_exit m pid hi lo = ("not_entered", m)) := by
  refine ⟨?_, ?_, ?_⟩
  · intro hst
    unfold check_trigger
    rw [hfound]
    simp [hst]
  · intro hst
    unfold enter_trade
    rw [hfound]
    simp [hst]
  · intro hst
    unfold check_exit
    rw [hfound]
    simp [hst]

/-- Concrete context for the lifecycle witness. -/
def witnessCtx : PatternContext :=
  ⟨"2-1-2", [2], none, none, none, none, [], none, none, none⟩

/-- Concrete one-pattern machine (state `scanning`) for the lifecycle
witness. -/
def witnessMachine : PatternStateMachine :=
  ⟨[(0, PatternState.scanning, witnessCtx)], 1⟩

theorem lifecycle_wrong_state_no_op_witness :
    witnessMachine.patterns.lookup 0 =
      some (PatternState.scanning, witnessCtx) ∧
    check_trigger witnessMachine 0 5 4 7 = (false, witnessMachine) := by
  constructor
  · rfl
  · exact (lifecycle_wrong_state_no_op witnessMachine 0 PatternState.scanning
      witnessCtx rfl 5 4 5 7).1 (by decide)

end Atlas

namespace Atlas

/-!  Pivot tracking (`PivotDetector.get_untaken_pivots`,
src/core/components.py lines 110-142). -/

/-- One confirmed pivot dictionary (index, value, timestamp), the
elements of the `peaks`/`valleys` lists built by `detect_pivots`. -/
structure Pivot where
  index : Nat
  value : ℚ
  timestampIdx : Nat
deriving DecidableEq, Repr

/-- The per-pivot test of `get_untaken_pivots`: a pivot is kept when
`pivot_idx < len(prices) - 1` and the maximum (resp. minimum) of the
prices after the pivot stays strictly below (resp. above) the pivot
value.  The empty-suffix arm is unreachable under the index guard. -/
def untakenKeep (prices : List ℚ) (pivot_type : String) (p : Pivot) : Bool :=
  if p.index < prices.length - 1 then
    if pivot_type = "high" then
      match prices.drop (p.index + 1) with
      | [] => false
      | q :: qs => decide (qs.foldl max q < p.value)
    else
      match prices.drop (p.index + 1) with
      | [] => false
      | q :: qs => decide (qs.foldl min q > p.value)
  else false

/-- `PivotDetector.get_untaken_pivots`. -/
def get_untaken_pivots (pivots : List Pivot) (prices : List ℚ)
    (pivot_type : String) : List Pivot :=
  pivots.filter (untakenKeep prices pivot_type)

theorem foldl_max_lt (v : ℚ) (qs : List ℚ) : ∀ q : ℚ,
    qs.foldl max q < v ↔ q < v ∧ ∀ x ∈ qs, x < v := by
  induction qs with
  | nil => intro q; simp
  | cons a t ih =>
    intro q
    rw [List.foldl_cons, ih]
    simp only [max_lt_iff, List.mem_cons]
    constructor
    · rintro ⟨⟨hq, ha⟩, ht⟩
      refine ⟨hq, ?_⟩
      rintro x (rfl | hx)
      · exact ha
      · exact ht x hx
    · rintro ⟨hq, hall⟩
      exact ⟨⟨hq, hall a (Or.inl rfl)⟩, fun x hx => hall x (Or.inr hx)⟩

theorem lt_foldl_min (v : ℚ) (qs : List ℚ) : ∀ q : ℚ,
    v < qs.foldl min q ↔ v < q ∧ ∀ x ∈ qs, v < x := by
  induction qs with
  | nil => intro q; simp
  | cons a t ih =>
    intro q
    rw [List.foldl_cons, ih]
    simp only [lt_min_iff, List.mem_cons]
    constructor
    · rintro ⟨⟨hq, ha⟩, ht⟩
      refine ⟨hq, ?_⟩
      rintro x (rfl | hx)
      · exact ha
      · exact ht x hx
    · rintro ⟨hq, hall⟩
      exact ⟨⟨hq, hall a (Or.inl rfl)⟩, fun x hx => hall x (Or.inr hx)⟩

/-- C8 counterexample.  The pivot at index 1 with value 110 is followed
only by a bar equal to 110 — no later price *exceeds* the pivot value,
so the claim would keep it — yet `get_untaken_pivots` drops it (the code
requires the running maximum to stay strictly below the value). -/
theorem untaken_pivots_counterexample :
    get_untaken_pivots [⟨1, 110, 1⟩] [100, 110, 110] "high" = [] ∧
    (∀ q ∈ ([100, 110, 110] : List ℚ).drop 2, ¬(110 < q)) ∧
    (⟨1, 110, 1⟩ : Pivot) ∈ [(⟨1, 110, 1⟩ : Pivot)] := by
  refine ⟨by decide, ?_, by decide⟩
  intro q hq
  have : q = 110 := by
    simp only [List.drop, List.mem_singleton] at hq
    exact hq
  rw [this]
  exact lt_irrefl _

theorem untakenKeep_high_iff (prices : List ℚ) (p : Pivot) :
    untakenKeep prices "high" p = true ↔
      p.index + 1 < prices.length ∧
        ∀ q ∈ prices.drop (p.index + 1), q < p.value := by
  unfold untakenKeep
  by_cases hguard : p.index < prices.length - 1
  · rw [if_pos hguard, if_pos rfl]
    cases hdrop : prices.drop (p.index + 1) with
    | nil =>
      exfalso
      have hlen := List.length_drop (p.index + 1) prices
      rw [hdrop] at hlen
      simp only [List.length_nil] at hlen
      omega
    | cons a t =>
      change decide (List.foldl max a t < p.value) = true ↔ _
      rw [decide_eq_true_iff, foldl_max_lt]
      constructor
      · rintro ⟨ha, ht⟩
        refine ⟨by omega, ?_⟩
        intro q hq
        rcases List.mem_cons.mp hq with rfl | hq2
        · exact ha
        · exact ht q hq2
      · rintro ⟨_, hall⟩
        constructor
        · exact hall a (List.mem_cons_self a t)
        · intro x hx
          exact hall x (List.mem_cons_of_mem a hx)
  · rw [if_neg hguard]
    constructor
    · intro h; cases h
    · rintro ⟨h1, _⟩; omega

theorem untakenKeep_low_iff (prices : List ℚ) (p : Pivot) :
    untakenKeep prices "low" p = true ↔
      p.index + 1 < prices.length ∧
        ∀ q ∈ prices.drop (p.index + 1), p.value < q := by
  unfold untakenKeep
  by_cases hguard : p.index < prices.length - 1
  · rw [if_pos hguard, if_neg (by decide : ¬("low" : String) = "high")]
    cases hdrop : prices.drop (p.index + 1) with
    | nil =>
      exfalso
      have hlen := List.length_drop (p.index + 1) prices
      rw [hdrop] at hlen
      simp only [List.length_nil] at hlen
      omega
    | cons a t =>
      change decide (List.foldl min a t > p.value) = true ↔ _
      rw [decide_eq_true_iff, gt_iff_lt, lt_foldl_min]
      constructor
      · rintro ⟨ha, ht⟩
        refine ⟨by omega, ?_⟩
        intro q hq
        rcases List.mem_cons.mp hq with rfl | hq2
        · exact ha
        · exact ht q hq2
      · rintro ⟨_, hall⟩
        constructor
        · exact hall a (List.mem_cons_self a t)
        · intro x hx
          exact hall x (List.mem_cons_of_mem a hx)
  · rw [if_neg hguard]
    constructor
    · intro h; cases h
    · rintro ⟨h1, _⟩; omega

/-- C8 amended.  `get_untaken_pivots` returns exactly those pivots that
are not at the last index (some bar must follow) and whose value is
strictly above every later price (peaks) resp. strictly below every
later price (valleys): a later bar that merely *equals* the pivot value
already takes the pivot out, and a pivot with no later bars is always
dropped. -/
theorem untaken_pivots_strict (pivots : List Pivot) (prices : List ℚ)
    (p : Pivot) :
    (p ∈ get_untaken_pivots pivots prices "high" ↔
      p ∈ pivots ∧ p.index + 1 < prices.length ∧
        ∀ q ∈ prices.drop (p.index + 1), q < p.value) ∧
    (p ∈ get_untaken_pivots pivots prices "low" ↔
      p ∈ pivots ∧ p.index + 1 < prices.length ∧
        ∀ q ∈ prices.drop (p.index + 1), p.value < q) := by
  constructor
  · rw [get_untaken_pivots, List.mem_filter, untakenKeep_high_iff]
  · rw [get_untaken_pivots, List.mem_filter, untakenKeep_low_iff]

theorem untaken_pivots_strict_witness :
    (⟨0, 120, 0⟩ : Pivot) ∈ get_untaken_pivots [⟨0, 120, 0⟩] [100, 110] "high" :=
  (untaken_pivots_strict [⟨0, 120, 0⟩] [100, 110] ⟨0, 120, 0⟩).1.mpr
    ⟨by decide, by decide, by
      intro q hq
      simp only [List.drop, List.mem_singleton] at hq
      rw [hq]
      decide⟩

end Atlas

namespace Atlas

/-!  Deduplication (`STRATAnalyzer._is_duplicate_pattern`,
src/core/analyzer.py lines 214-244; the buffer is
`deque(maxlen=50)`, line 106). -/

/-- The fields of an analyzer `STRATSignal` used by this development
(src/core/analyzer.py lines 58-74).  `pattern` and `direction` carry the
enum string values; the timestamp is the trigger bar index. -/
structure ASignal where
  pattern : String
  direction : String
  confidence : ℚ
  entry_price : ℚ
  trigger_price : ℚ
  stop_loss : ℚ
  target_price : ℚ
  timestampIdx : Nat
  bar_sequence : List Int
  trigger_bar_index : Nat
  risk_reward_ratio : ℚ
deriving DecidableEq, Repr

/-- Python `round(x, 2)`: round to cents, ties to even (banker's
rounding). -/
def roundHalfEven (y : ℚ) : Int :=
  if y - ⌊y⌋ > 1/2 then ⌊y⌋ + 1
  else if y - ⌊y⌋ < 1/2 then ⌊y⌋
  else if ⌊y⌋ % 2 = 0 then ⌊y⌋ else ⌊y⌋ + 1

def roundCents (x : ℚ) : ℚ :=
  ((roundHalfEven (x * 100) : Int) : ℚ) / 100

/-- Dedup fingerprint (src/core/analyzer.py lines 225-232): all six
components are stored, prices rounded to cents. -/
structure Fingerprint where
  pattern : String
  timestampIdx : Nat
  entry_price : ℚ
  stop_loss : ℚ
  target_price : ℚ
  direction : String
deriving DecidableEq, Repr

def mkFingerprint (s : ASignal) : Fingerprint :=
  ⟨s.pattern, s.timestampIdx, roundCents s.entry_price,
   roundCents s.stop_loss, roundCents s.target_price, s.direction⟩

/-- The comparison loop body (src/core/analyzer.py lines 236-239): only
pattern, timestamp, entry price (within 0.01) and direction are
compared; the stored stop and target components are never consulted. -/
def fingerprintMatches (recent fp : Fingerprint) : Bool :=
  decide (recent.pattern = fp.pattern ∧
    recent.timestampIdx = fp.timestampIdx ∧
    |recent.entry_price - fp.entry_price| < 0.01 ∧
    recent.direction = fp.direction)

/-- `deque(maxlen=50).append`: append right, evict oldest beyond 50. -/
def dequeAppend (recents : List Fingerprint) (fp : Fingerprint) : List Fingerprint :=
  (recents ++ [fp]).drop (recents.length + 1 - 50)

/-- `STRATAnalyzer._is_duplicate_pattern`: returns the verdict and the
updated buffer (the fingerprint is appended only on a miss). -/
def is_duplicate_pattern (recents : List Fingerprint) (s : ASignal) :
    Bool × List Fingerprint :=
  let fingerprint := mkFingerprint s
  if recents.any (fun recent => fingerprintMatches recent fingerprint) = true then
    (true, recents)
  else
    (false, dequeAppend recents fingerprint)

/-- Concrete signals for the dedup counterexample: identical except for
the stop price. -/
def dupSig1 : ASignal :=
  ⟨"2-1-2", "BULLISH", 1, 100, 101, 98, 107, 5, [2, 1, 2], 5, 3⟩

def dupSig2 : ASignal :=
  ⟨"2-1-2", "BULLISH", 1, 100, 101, 99, 107, 5, [2, 1, 2], 5, 3⟩

theorem roundHalfEven_int (w : Int) : roundHalfEven ((w : ℚ)) = w := by
  unfold roundHalfEven
  rw [Int.floor_intCast]
  have hsub : ((w : ℚ)) - ((w : ℚ)) = 0 := sub_self _
  rw [hsub]
  have h1 : ¬((0 : ℚ) > 1 / 2) := by norm_num
  have h2 : (0 : ℚ) < 1 / 2 := by norm_num
  rw [if_neg h1, if_pos h2]

theorem roundCents_int (z : Int) : roundCents (z : ℚ) = (z : ℚ) := by
  unfold roundCents
  have hy : (z : ℚ) * 100 = ((z * 100 : Int) : ℚ) := by push_cast; ring
  rw [hy, roundHalfEven_int]
  push_cast
  field_simp

/-- C5 counterexample.  Submitting `dupSig1` to an empty buffer inserts
its fingerprint; submitting `dupSig2`, whose fingerprint differs in the
stop component, is nevertheless reported as a duplicate: the comparison
ignores the stop and target components. -/
theorem dedup_counterexample :
    (is_duplicate_pattern [] dupSig1).1 = false ∧
    (is_duplicate_pattern (is_duplicate_pattern [] dupSig1).2 dupSig2).1 = true ∧
    mkFingerprint dupSig1 ≠ mkFingerprint dupSig2 := by
  have h98 : roundCents ((98 : Int) : ℚ) = ((98 : Int) : ℚ) := roundCents_int 98
  have h99 : roundCents ((99 : Int) : ℚ) = ((99 : Int) : ℚ) := roundCents_int 99
  have h100 : roundCents ((100 : Int) : ℚ) = ((100 : Int) : ℚ) := roundCents_int 100
  push_cast at h98 h99 h100
  refine ⟨rfl, ?_, ?_⟩
  · show (is_duplicate_pattern [mkFingerprint dupSig1] dupSig2).1 = true
    unfold is_duplicate_pattern
    rw [if_pos]
    rw [List.any_eq_true]
    refine ⟨mkFingerprint dupSig1, List.mem_singleton_self _, ?_⟩
    unfold fingerprintMatches mkFingerprint dupSig1 dupSig2
    apply decide_eq_true
    refine ⟨rfl, rfl, ?_, rfl⟩
    show |roundCents 100 - roundCents 100| < 0.01
    rw [sub_self, abs_zero]
    norm_num
  · intro h
    have h2 := congrArg Fingerprint.stop_loss h
    unfold mkFingerprint dupSig1 dupSig2 at h2
    simp only at h2
    rw [h98, h99] at h2
    norm_num at h2

theorem fingerprintMatches_self (fp : Fingerprint) :
    fingerprintMatches fp fp = true := by
  unfold fingerprintMatches
  apply decide_eq_true
  refine ⟨rfl, rfl, ?_, rfl⟩
  rw [sub_self, abs_zero]
  norm_num

/-- C5 amended.  `_is_duplicate_pattern` returns true exactly when some
buffered fingerprint agrees on pattern name, timestamp, direction and
(within $0.01) rounded entry price — the stored stop and target
components are not compared; on a miss the fingerprint is appended with
capacity 50, oldest evicted; a candidate whose full fingerprint is
already buffered is always suppressed, so two identical candidates
yield one surviving signal. -/
theorem dedup_four_component_match (recents : List Fingerprint) (s : ASignal)
    (hlen : recents.length ≤ 50) :
    ((is_duplicate_pattern recents s).1 = true ↔
      ∃ fp ∈ recents, fingerprintMatches fp (mkFingerprint s) = true) ∧
    ((is_duplicate_pattern recents s).1 = true →
      (is_duplicate_pattern recents s).2 = recents) ∧
    ((is_duplicate_pattern recents s).1 = false →
      (is_duplicate_pattern recents s).2 = dequeAppend recents (mkFingerprint s)) ∧
    (is_duplicate_pattern recents s).2.length ≤ 50 ∧
    (mkFingerprint s ∈ recents → (is_duplicate_pattern recents s).1 = true) := by
  unfold is_duplicate_pattern
  by_cases h : recents.any (fun recent => fingerprintMatches recent (mkFingerprint s)) = true
  · rw [if_pos h]
    refine ⟨?_, fun _ => rfl, ?_, hlen, fun _ => rfl⟩
    · exact ⟨fun _ => List.any_eq_true.mp h, fun _ => rfl⟩
    · intro hcon
      simp at hcon
  · rw [if_neg h]
    refine ⟨?_, ?_, fun _ => rfl, ?_, ?_⟩
    · constructor
      · intro hcon
        exact absurd hcon Bool.false_ne_true
      · intro hex
        exact absurd (List.any_eq_true.mpr hex) h
    · intro hcon
      simp at hcon
    · show (dequeAppend recents (mkFingerprint s)).length ≤ 50
      unfold dequeAppend
      rw [List.length_drop, List.length_append]
      simp only [List.length_singleton]
      omega
    · intro hmem
      exfalso
      exact h (List.any_eq_true.mpr
        ⟨mkFingerprint s, hmem, fingerprintMatches_self _⟩)

theorem dedup_four_component_match_witness :
    (is_duplicate_pattern [] dupSig1).2 = dequeAppend [] (mkFingerprint dupSig1) :=
  (dedup_four_component_match [] dupSig1 (by decide)).2.2.1 rfl

end Atlas

namespace Atlas

/-!  Confidence scoring: the per-pattern weights
(src/core/analyzer.py lines 109-119), the 2-1-2 / 3-1-2 confidence
calculators (lines 1436-1497), the fixed detector confidences, and the
generator's combined confidence
(src/trading/strat_signals.py lines 539-546). -/

def pattern_weight_212 : ℚ := 0.85
def pattern_weight_312 : ℚ := 0.90
def pattern_weight_322 : ℚ := 0.88
def pattern_weight_22_reversal : ℚ := 0.75
def pattern_weight_22_continuation : ℚ := 0.80
def pattern_weight_rev_strat : ℚ := 0.75
def pattern_weight_ftfc_combo : ℚ := 0.95
def pattern_weight_212_reversal : ℚ := 0.80
def pattern_weight_broadening : ℚ := 0.70

/-- The fixed confidence of the 3-2 detector
(src/core/analyzer.py lines 974 and 1004). -/
def three_two_confidence : ℚ := 0.85

/-- Rev STRAT confidence (src/core/analyzer.py lines 741 and 772):
0.95 when the setup bar is an outside bar, else 0.85. -/
def rev_strat_confidence (class1 : Int) : ℚ :=
  if class1 = 3 then 0.95 else 0.85

/-- Post-3-1-2 Rev STRAT confidence (src/core/analyzer.py lines 468 and
499). -/
def post312_confidence : ℚ := 0.95

/-- Inside-bar containment adjustment of `_calculate_212_confidence`
(lines 1449-1456): +0.05 when the inside bar spans less than half the
first bar's range.  Division in ℚ gives 0 on a zero denominator; the
source guards the denominator. -/
def conf212_inside_adj (bar1 bar2 : Bar) : ℚ :=
  if bar1.high - bar1.low > 0 ∧
      (bar2.high - bar2.low) / (bar1.high - bar1.low) < 0.5 then 0.05 else 0

/-- Breakout-strength adjustment (lines 1458-1465): +0.05 on a breakout
of more than 10% of the first bar's range.  A zero first-bar range gives
±inf in the numpy source; it yields 0 here (the adjustment sum stays
nonnegative either way). -/
def conf212_breakout_adj (bar1 bar3 : Bar) (direction : String) : ℚ :=
  if (if direction = "BULLISH" then
        (bar3.high - bar1.high) / (bar1.high - bar1.low)
      else
        (bar1.low - bar3.low) / (bar1.high - bar1.low)) > 0.1 then 0.05 else 0

/-- Volume adjustment (lines 1467-1470): +0.03 on 20% higher volume. -/
def conf212_volume_adj (bar1 bar3 : Bar) : ℚ :=
  if bar3.volume > bar1.volume * 1.2 then 0.03 else 0

/-- `STRATAnalyzer._calculate_212_confidence`. -/
def calculate_212_confidence (bar1 bar2 bar3 : Bar) (direction : String) : ℚ :=
  min 0.95 (pattern_weight_212 +
    (conf212_inside_adj bar1 bar2 + conf212_breakout_adj bar1 bar3 direction +
      conf212_volume_adj bar1 bar3))

/-- Containment adjustment of `_calculate_312_confidence`
(lines 1483-1489). -/
def conf312_inside_adj (bar2 bar3 : Bar) : ℚ :=
  if bar3.high - bar3.low > 0 ∧
      (bar2.high - bar2.low) / (bar3.high - bar3.low) < 0.6 then 0.03 else 0

/-- Volume adjustment of `_calculate_312_confidence` (lines 1491-1494). -/
def conf312_volume_adj (bar1 bar3 : Bar) : ℚ :=
  if bar3.volume > bar1.volume * 1.1 then 0.02 else 0

/-- `STRATAnalyzer._calculate_312_confidence`.  The direction argument is
accepted but unused, as in the source. -/
def calculate_312_confidence (bar1 bar2 bar3 : Bar) (direction : String) : ℚ :=
  min 0.95 (pattern_weight_312 +
    (conf312_inside_adj bar2 bar3 + conf312_volume_adj bar1 bar3))

/-- Risk/reward factor of `_validate_and_create_signal` (line 540). -/
def rr_adjustment (risk_reward : ℚ) : ℚ :=
  0.7 + 0.3 * min (risk_reward / 3) 1

/-- The combined confidence of `_validate_and_create_signal`
(lines 539-546). -/
def generator_confidence (tfc_score : ℚ) (pattern_confidence : Option ℚ)
    (risk_reward : ℚ) : ℚ :=
  match pattern_confidence with
  | some p => min ((tfc_score * 0.6 + min p 1 * 0.4) * rr_adjustment risk_reward) 1
  | none => min (tfc_score * rr_adjustment risk_reward) 1

theorem conf212_adj_nonneg (bar1 bar2 bar3 : Bar) (direction : String) :
    0 ≤ conf212_inside_adj bar1 bar2 ∧
    0 ≤ conf212_breakout_adj bar1 bar3 direction ∧
    0 ≤ conf212_volume_adj bar1 bar3 := by
  unfold conf212_inside_adj conf212_breakout_adj conf212_volume_adj
  refine ⟨?_, ?_, ?_⟩ <;> split_ifs <;> norm_num

theorem conf312_adj_nonneg (bar1 bar2 bar3 : Bar) :
    0 ≤ conf312_inside_adj bar2 bar3 ∧ 0 ≤ conf312_volume_adj bar1 bar3 := by
  unfold conf312_inside_adj conf312_volume_adj
  constructor <;> split_ifs <;> norm_num

theorem rr_adjustment_bounds (risk_reward : ℚ) (h : 0 ≤ risk_reward) :
    0.7 ≤ rr_adjustment risk_reward ∧ rr_adjustment risk_reward ≤ 1 := by
  unfold rr_adjustment
  have hm1 : min (risk_reward / 3) 1 ≤ 1 := min_le_right _ _
  have hm0 : 0 ≤ min (risk_reward / 3) 1 :=
    le_min (by positivity) (by norm_num)
  constructor <;> nlinarith

/-- C4.  Every confidence a detector or the signal generator attaches to
an emitted candidate lies in [0.10, 0.95]: the 2-1-2 and 3-1-2
calculators (base weight plus nonnegative adjustments, capped at 0.95),
the fixed weights of the remaining detectors, the Rev STRAT confidences,
and the generator's combined confidence given a tier score in
[0.10, 0.95], an analyzer pattern confidence in [0.75, 0.95] (the range
of the three patterns the generator consumes) and a nonnegative
risk/reward. -/
theorem emitted_confidence_in_range (bar1 bar2 bar3 : Bar)
    (direction : String) (class1 : Int) (tfc pc rr : ℚ)
    (htfc : 1/10 ≤ tfc ∧ tfc ≤ 0.95)
    (hpc : 0.75 ≤ pc ∧ pc ≤ 0.95) (hrr : 0 ≤ rr) :
    (0.10 ≤ calculate_212_confidence bar1 bar2 bar3 direction ∧
      calculate_212_confidence bar1 bar2 bar3 direction ≤ 0.95) ∧
    (0.10 ≤ calculate_312_confidence bar1 bar2 bar3 direction ∧
      calculate_312_confidence bar1 bar2 bar3 direction ≤ 0.95) ∧
    (0.10 ≤ pattern_weight_322 ∧ pattern_weight_322 ≤ 0.95) ∧
    (0.10 ≤ pattern_weight_22_reversal ∧ pattern_weight_22_reversal ≤ 0.95) ∧
    (0.10 ≤ pattern_weight_22_continuation ∧
      pattern_weight_22_continuation ≤ 0.95) ∧
    (0.10 ≤ pattern_weight_212_reversal ∧ pattern_weight_212_reversal ≤ 0.95) ∧
    (0.10 ≤ three_two_confidence ∧ three_two_confidence ≤ 0.95) ∧
    (0.10 ≤ rev_strat_confidence class1 ∧ rev_strat_confidence class1 ≤ 0.95) ∧
    (0.10 ≤ post312_confidence ∧ post312_confidence ≤ 0.95) ∧
    (0.10 ≤ generator_confidence tfc (some pc) rr ∧
      generator_confidence tfc (some pc) rr ≤ 0.95) := by
  obtain ⟨ha1, ha2, ha3⟩ := conf212_adj_nonneg bar1 bar2 bar3 direction
  obtain ⟨hb1, hb2⟩ := conf312_adj_nonneg bar1 bar2 bar3
  obtain ⟨hr1, hr2⟩ := rr_adjustment_bounds rr hrr
  refine ⟨?_, ?_, ?_, ?_, ?_, ?_, ?_, ?_, ?_, ?_⟩
  · unfold calculate_212_confidence pattern_weight_212
    constructor
    · apply le_min (by norm_num)
      linarith
    · exact min_le_left _ _
  · unfold calculate_312_confidence pattern_weight_312
    constructor
    · apply le_min (by norm_num)
      linarith
    · exact min_le_left _ _
  · unfold pattern_weight_322; norm_num
  · unfold pattern_weight_22_reversal; norm_num
  · unfold pattern_weight_22_continuation; norm_num
  · unfold pattern_weight_212_reversal; norm_num
  · unfold three_two_confidence; norm_num
  · unfold rev_strat_confidence
    split_ifs <;> norm_num
  · unfold post312_confidence; norm_num
  · unfold generator_confidence
    obtain ⟨htfc1, htfc2⟩ := htfc
    obtain ⟨hpc1, hpc2⟩ := hpc
    have hminp : min pc 1 = pc := min_eq_left (by linarith)
    change (0.10 : ℚ) ≤ min ((tfc * 0.6 + min pc 1 * 0.4) * rr_adjustment rr) 1 ∧
      min ((tfc * 0.6 + min pc 1 * 0.4) * rr_adjustment rr) 1 ≤ (0.95 : ℚ)
    rw [hminp]
    have hbase1 : (0.36 : ℚ) ≤ tfc * 0.6 + pc * 0.4 := by linarith
    have hbase2 : tfc * 0.6 + pc * 0.4 ≤ 0.95 := by linarith
    have hprod1 : (0.252 : ℚ) ≤ (tfc * 0.6 + pc * 0.4) * rr_adjustment rr := by
      nlinarith
    have hprod2 : (tfc * 0.6 + pc * 0.4) * rr_adjustment rr ≤ 0.95 := by
      nlinarith
    constructor
    · apply le_min (by linarith) (by norm_num)
    · exact le_trans (min_le_left _ _) hprod2

theorem emitted_confidence_in_range_witness :
    (0.10 : ℚ) ≤ generator_confidence 0.8 (some 0.85) 2 ∧
      generator_confidence 0.8 (some 0.85) 2 ≤ 0.95 :=
  (emitted_confidence_in_range ⟨100, 101, 99, 100, 1000⟩
    ⟨100, 101, 99, 100, 1000⟩ ⟨100, 101, 99, 100, 1000⟩ "BULLISH" 2
    0.8 0.85 2 (by norm_num) (by norm_num) (by norm_num)).2.2.2.2.2.2.2.2.2

end Atlas

namespace Atlas

/-!  The 2-1-2 / 3-1-2 analyzers (src/core/analyzer.py lines 521-674),
the analyzer-to-generator conversion
(src/trading/strat_signals.py lines 400-435), and signal validation
(`_validate_and_create_signal`, lines 437-572). -/

/-- `reward / risk if risk > 0 else 0` (src/core/analyzer.py lines
576-579 and analogous sites). -/
def risk_reward_of (entry_price stop_loss target_price : ℚ) : ℚ :=
  if |entry_price - stop_loss| > 0 then
    |target_price - entry_price| / |entry_price - stop_loss|
  else 0

/-- `STRATAnalyzer._analyze_212_signal` (src/core/analyzer.py lines
521-603), price/direction logic.  Out-of-range access (the source's
try/except) yields none; the detector only calls this with
trigger_index ≥ 2. -/
def analyze_212_signal (df : List Bar) (trigger_index : Nat) : Option ASignal :=
  match df.get? (trigger_index - 2), df.get? (trigger_index - 1),
      df.get? trigger_index with
  | some bar1, some bar2, some bar3 =>
    if 0 < trigger_index - 2 then
      match df.get? (trigger_index - 3) with
      | some bar0 =>
        if (bar1.high > bar0.high ∧ bar1.low ≥ bar0.low) ∧
            bar3.high > bar2.high then
          some ⟨"2-1-2", "BULLISH",
            calculate_212_confidence bar1 bar2 bar3 "BULLISH",
            bar3.open_, bar2.high, bar2.low,
            bar2.high + (bar1.high - bar1.low),
            trigger_index, [2, 1, 2], trigger_index,
            risk_reward_of bar3.open_ bar2.low
              (bar2.high + (bar1.high - bar1.low))⟩
        else if (bar1.low < bar0.low ∧ bar1.high ≤ bar0.high) ∧
            bar3.low < bar2.low then
          some ⟨"2-1-2", "BEARISH",
            calculate_212_confidence bar1 bar2 bar3 "BEARISH",
            bar3.open_, bar2.low, bar2.high,
            bar2.low - (bar1.high - bar1.low),
            trigger_index, [2, 1, 2], trigger_index,
            risk_reward_of bar3.open_ bar2.high
              (bar2.low - (bar1.high - bar1.low))⟩
        else none
      | none => none
    else none
  | _, _, _ => none

/-- `STRATAnalyzer._analyze_312_signal` (src/core/analyzer.py lines
605-674). -/
def analyze_312_signal (df : List Bar) (trigger_index : Nat) : Option ASignal :=
  match df.get? (trigger_index - 2), df.get? (trigger_index - 1),
      df.get? trigger_index with
  | some bar1, some bar2, some bar3 =>
    if bar3.high > bar2.high ∧ bar3.low ≥ bar2.low then
      some ⟨"3-1-2", "BULLISH",
        calculate_312_confidence bar1 bar2 bar3 "BULLISH",
        bar3.open_, bar2.high, bar1.low,
        bar2.high + (bar1.high - bar1.low),
        trigger_index, [3, 1, 2], trigger_index,
        risk_reward_of bar3.open_ bar1.low
          (bar2.high + (bar1.high - bar1.low))⟩
    else if bar3.low < bar2.low ∧ bar3.high ≤ bar2.high then
      some ⟨"3-1-2", "BEARISH",
        calculate_312_confidence bar1 bar2 bar3 "BEARISH",
        bar3.open_, bar2.low, bar1.high,
        bar2.low - (bar1.high - bar1.low),
        trigger_index, [3, 1, 2], trigger_index,
        risk_reward_of bar3.open_ bar1.high
          (bar2.low - (bar1.high - bar1.low))⟩
    else none
  | _, _, _ => none

/-- The dictionary produced by
`STRATSignalGenerator._convert_analyzer_signal`
(src/trading/strat_signals.py lines 400-435). -/
structure PatternDict where
  ptype : String
  direction : String
  end_index : Nat
  bars : List Int
  inside_bar_idx : Option Nat
  analyzer_trigger_price : Option ℚ
  analyzer_stop_price : Option ℚ
  analyzer_target_price : Option ℚ
  analyzer_confidence : Option ℚ
deriving DecidableEq, Repr

/-- `STRATSignalGenerator._convert_analyzer_signal`.  The analyzer
signal always carries its prices, so the option fields are populated. -/
def convert_analyzer_signal (a : ASignal) : Option PatternDict :=
  if a.direction ≠ "BULLISH" ∧ a.direction ≠ "BEARISH" then none
  else if a.pattern = "2-1-2" then
    some ⟨"2-1-2", if a.direction = "BULLISH" then "long" else "short",
      a.trigger_bar_index, a.bar_sequence,
      if 1 ≤ a.trigger_bar_index then some (a.trigger_bar_index - 1) else none,
      some a.trigger_price, some a.stop_loss, some a.target_price,
      some a.confidence⟩
  else if a.pattern = "3-1-2" then
    some ⟨"3-1-2", if a.direction = "BULLISH" then "long" else "short",
      a.trigger_bar_index, a.bar_sequence,
      if 1 ≤ a.trigger_bar_index then some (a.trigger_bar_index - 1) else none,
      some a.trigger_price, some a.stop_loss, some a.target_price,
      some a.confidence⟩
  else if a.pattern = "2-2 Reversal" then
    some ⟨"2-2", if a.direction = "BULLISH" then "long" else "short",
      a.trigger_bar_index, a.bar_sequence, none,
      some a.trigger_price, some a.stop_loss, some a.target_price,
      some a.confidence⟩
  else none

/-- Generator signal (`STRATSignal` of src/trading/strat_signals.py
lines 90-107, the fields populated by `_validate_and_create_signal`). -/
structure GSignal where
  timestampIdx : Nat
  pattern_type : String
  direction : String
  trigger_price : ℚ
  stop_price : ℚ
  target_price : ℚ
  tfc_score : ℚ
  tfc_alignment : String
  pattern_bars : List Int
  confidence : ℚ
  risk_reward : ℚ
deriving DecidableEq, Repr

/-- `STRATSignalGenerator.TRIGGER_TOLERANCE` (line 122). -/
def TRIGGER_TOLERANCE : ℚ := 0.01

/-- `data.iloc[max(0, i-3):i]`, the 2-2 target window (lines 511-524). -/
def windowSlice (data : List Bar) (i : Nat) : List Bar :=
  (data.take i).drop (i - 3)

/-- The price-level computation of `_validate_and_create_signal`
(lines 477-524): analyzer prices (offset by the tolerance) when
available, else the inside-bar levels, else the 2-2 levels. -/
def compute_signal_prices (p : PatternDict) (data : List Bar) :
    Option (ℚ × ℚ × ℚ) :=
  match p.analyzer_trigger_price, p.analyzer_stop_price,
      p.analyzer_target_price with
  | some t, some st, some tg =>
    some (if p.direction = "long" then t + TRIGGER_TOLERANCE
          else t - TRIGGER_TOLERANCE, st, tg)
  | _, _, _ =>
    match p.inside_bar_idx with
    | some inside_idx =>
      match data.get? inside_idx, data.get? (p.end_index - 2) with
      | some insideBar, some prevBar =>
        if p.direction = "long" then
          some (insideBar.high + TRIGGER_TOLERANCE, insideBar.low, prevBar.high)
        else
          some (insideBar.low - TRIGGER_TOLERANCE, insideBar.high, prevBar.low)
      | _, _ => none
    | none =>
      match data.get? p.end_index with
      | some cur =>
        if p.direction = "long" then
          some (cur.high + TRIGGER_TOLERANCE, cur.low,
            if 0 < p.end_index then
              match windowSlice data p.end_index with
              | [] => cur.high
              | b :: bs => (bs.map Bar.high).foldl max b.high
            else cur.high)
        else
          some (cur.low - TRIGGER_TOLERANCE, cur.high,
            if 0 < p.end_index then
              match windowSlice data p.end_index with
              | [] => cur.low
              | b :: bs => (bs.map Bar.low).foldl min b.low
            else cur.low)
      | none => none

/-- `STRATSignalGenerator._validate_and_create_signal` (lines 437-572):
TFC threshold and direction checks, price computation, minimum 1:1
risk/reward, combined confidence.  A missing continuity row is the
`timestamp not in continuity_df.index` early return. -/
def validate_and_create_signal (p : PatternDict) (data : List Bar)
    (tfc_row : Option TfcScore) (min_tfc_score : ℚ) (require_ftfc : Bool) :
    Option GSignal :=
  match tfc_row with
  | none => none
  | some row =>
    if row.confidence < min_tfc_score then none
    else if require_ftfc = true ∧ row.confidence < 0.95 then none
    else if ¬((p.direction = "long") =
        (row.direction = "bullish" ∨ row.direction = "bullish_strong")) ∧
        row.direction ≠ "mixed" then none
    else
      match compute_signal_prices p data with
      | none => none
      | some (trigger_price, stop_price, target_price) =>
        if risk_reward_of trigger_price stop_price target_price < 1 then none
        else
          some ⟨p.end_index, p.ptype, p.direction, trigger_price, stop_price,
            target_price, row.confidence, row.direction, p.bars,
            generator_confidence row.confidence p.analyzer_confidence
              (risk_reward_of trigger_price stop_price target_price),
            risk_reward_of trigger_price stop_price target_price⟩

end Atlas

namespace Atlas

theorem analyze_212_trigger_spec (df : List Bar) (i : Nat) (a : ASignal)
    (h : analyze_212_signal df i = some a) :
    ∃ b2, df.get? (i - 1) = some b2 ∧
      ((a.direction = "BULLISH" ∧ a.trigger_price = b2.high) ∨
       (a.direction = "BEARISH" ∧ a.trigger_price = b2.low)) ∧
      a.pattern = "2-1-2" := by
  unfold analyze_212_signal at h
  cases hb1 : df.get? (i - 2) with
  | none => rw [hb1] at h; cases h
  | some bar1 =>
    cases hb2 : df.get? (i - 1) with
    | none => rw [hb1, hb2] at h; cases h
    | some bar2 =>
      cases hb3 : df.get? i with
      | none => rw [hb1, hb2, hb3] at h; cases h
      | some bar3 =>
        rw [hb1, hb2, hb3] at h
        simp only [] at h
        split_ifs at h with hg
        · cases hb0 : df.get? (i - 3) with
          | none =>
            rw [hb0] at h
            exact Option.noConfusion h
          | some bar0 =>
            rw [hb0] at h
            simp only [] at h
            split_ifs at h with hc1 hc2
            · cases h
              exact ⟨bar2, rfl, Or.inl ⟨rfl, rfl⟩, rfl⟩
            · cases h
              exact ⟨bar2, rfl, Or.inr ⟨rfl, rfl⟩, rfl⟩

theorem analyze_312_trigger_spec (df : List Bar) (i : Nat) (a : ASignal)
    (h : analyze_312_signal df i = some a) :
    ∃ b2, df.get? (i - 1) = some b2 ∧
      ((a.direction = "BULLISH" ∧ a.trigger_price = b2.high) ∨
       (a.direction = "BEARISH" ∧ a.trigger_price = b2.low)) ∧
      a.pattern = "3-1-2" := by
  unfold analyze_312_signal at h
  cases hb1 : df.get? (i - 2) with
  | none => rw [hb1] at h; cases h
  | some bar1 =>
    cases hb2 : df.get? (i - 1) with
    | none => rw [hb1, hb2] at h; cases h
    | some bar2 =>
      cases hb3 : df.get? i with
      | none => rw [hb1, hb2, hb3] at h; cases h
      | some bar3 =>
        rw [hb1, hb2, hb3] at h
        simp only [] at h
        split_ifs at h with hc1 hc2
        · cases h
          exact ⟨bar2, rfl, Or.inl ⟨rfl, rfl⟩, rfl⟩
        · cases h
          exact ⟨bar2, rfl, Or.inr ⟨rfl, rfl⟩, rfl⟩

theorem convert_analyzer_signal_spec (a : ASignal) (p : PatternDict)
    (h : convert_analyzer_signal a = some p) :
    p.direction = (if a.direction = "BULLISH" then "long" else "short") ∧
    p.analyzer_trigger_price = some a.trigger_price ∧
    p.analyzer_stop_price = some a.stop_loss ∧
    p.analyzer_target_price = some a.target_price ∧
    p.analyzer_confidence = some a.confidence := by
  unfold convert_analyzer_signal at h
  by_cases hd : a.direction ≠ "BULLISH" ∧ a.direction ≠ "BEARISH"
  · rw [if_pos hd] at h
    exact Option.noConfusion h
  · rw [if_neg hd] at h
    by_cases hp1 : a.pattern = "2-1-2"
    · rw [if_pos hp1] at h
      cases h
      exact ⟨rfl, rfl, rfl, rfl, rfl⟩
    · rw [if_neg hp1] at h
      by_cases hp2 : a.pattern = "3-1-2"
      · rw [if_pos hp2] at h
        cases h
        exact ⟨rfl, rfl, rfl, rfl, rfl⟩
      · rw [if_neg hp2] at h
        by_cases hp3 : a.pattern = "2-2 Reversal"
        · rw [if_pos hp3] at h
          cases h
          exact ⟨rfl, rfl, rfl, rfl, rfl⟩
        · rw [if_neg hp3] at h
          exact Option.noConfusion h

theorem compute_prices_analyzer (p : PatternDict) (data : List Bar)
    (t st tg : ℚ) (h1 : p.analyzer_trigger_price = some t)
    (h2 : p.analyzer_stop_price = some st)
    (h3 : p.analyzer_target_price = some tg) :
    compute_signal_prices p data =
      some ((if p.direction = "long" then t + TRIGGER_TOLERANCE
             else t - TRIGGER_TOLERANCE), st, tg) := by
  unfold compute_signal_prices
  rw [h1, h2, h3]

theorem validate_and_create_signal_spec (p : PatternDict) (data : List Bar)
    (row : TfcScore) (minT : ℚ) (reqF : Bool) (s : GSignal)
    (h : validate_and_create_signal p data (some row) minT reqF = some s) :
    s.direction = p.direction ∧
    ∃ stop target, compute_signal_prices p data =
      some (s.trigger_price, stop, target) := by
  unfold validate_and_create_signal at h
  simp only [] at h
  split_ifs at h with h1 h2 h3
  replace h := h.symm
  cases hcp : compute_signal_prices p data with
  | none =>
    rw [hcp] at h
    exact Option.noConfusion h
  | some triple =>
    obtain ⟨trigger, stop, target⟩ := triple
    rw [hcp] at h
    simp only [] at h
    split_ifs at h with h4
    cases h
    exact ⟨rfl, stop, target, rfl⟩

/-- C6.  For a 2-1-2 or 3-1-2 analyzer signal carried through
`_convert_analyzer_signal` and `_validate_and_create_signal`, the
emitted signal's trigger price is the inside bar's high plus the $0.01
tolerance for a long signal, and the inside bar's low minus the
tolerance for a short signal. -/
theorem trigger_price_offset_from_inside_bar (df : List Bar) (i : Nat)
    (a : ASignal) (p : PatternDict) (s : GSignal) (row : TfcScore)
    (minT : ℚ) (reqF : Bool) (insideBar : Bar)
    (ha : analyze_212_signal df i = some a ∨ analyze_312_signal df i = some a)
    (hconv : convert_analyzer_signal a = some p)
    (hval : validate_and_create_signal p df (some row) minT reqF = some s)
    (hinside : df.get? (i - 1) = some insideBar) :
    (s.direction = "long" →
      s.trigger_price = insideBar.high + TRIGGER_TOLERANCE) ∧
    (s.direction = "short" →
      s.trigger_price = insideBar.low - TRIGGER_TOLERANCE) := by
  obtain ⟨hdir_eq, htp, hsp, htg, _⟩ := convert_analyzer_signal_spec a p hconv
  obtain ⟨hsdir, stop, target, hcp⟩ :=
    validate_and_create_signal_spec p df row minT reqF s hval
  have hcp2 := compute_prices_analyzer p df a.trigger_price a.stop_loss
    a.target_price htp hsp htg
  rw [hcp] at hcp2
  have htrip := Option.some.inj hcp2
  have htrigger : s.trigger_price =
      (if p.direction = "long" then a.trigger_price + TRIGGER_TOLERANCE
       else a.trigger_price - TRIGGER_TOLERANCE) := congrArg Prod.fst htrip
  have hbar : ∃ b2, df.get? (i - 1) = some b2 ∧
      ((a.direction = "BULLISH" ∧ a.trigger_price = b2.high) ∨
       (a.direction = "BEARISH" ∧ a.trigger_price = b2.low)) := by
    rcases ha with h | h
    · obtain ⟨b2, hx1, hx2, _⟩ := analyze_212_trigger_spec df i a h
      exact ⟨b2, hx1, hx2⟩
    · obtain ⟨b2, hx1, hx2, _⟩ := analyze_312_trigger_spec df i a h
      exact ⟨b2, hx1, hx2⟩
  obtain ⟨b2, hb2, hcase⟩ := hbar
  have hb2eq : b2 = insideBar := by
    rw [hb2] at hinside
    exact Option.some.inj hinside
  subst hb2eq
  constructor
  · intro hlong
    rw [hsdir] at hlong
    rcases hcase with ⟨hd, htr⟩ | ⟨hd, htr⟩
    · rw [htrigger, if_pos hlong, htr]
    · exfalso
      rw [hd] at hdir_eq
      rw [if_neg (by decide : ¬("BEARISH" : String) = "BULLISH")] at hdir_eq
      rw [hdir_eq] at hlong
      exact absurd hlong (by decide)
  · intro hshort
    rw [hsdir] at hshort
    rcases hcase with ⟨hd, htr⟩ | ⟨hd, htr⟩
    · exfalso
      rw [hd] at hdir_eq
      rw [if_pos rfl] at hdir_eq
      rw [hdir_eq] at hshort
      exact absurd hshort (by decide)
    · have hplong : p.direction ≠ "long" := by
        rw [hshort]
        decide
      rw [htrigger, if_neg hplong, htr]

end Atlas

namespace Atlas

/-- Bars for the C6 witness: a bullish 2-1-2 with a wide first bar. -/
def w6df : List Bar :=
  [⟨100, 100, 90, 100, 1000⟩, ⟨100, 103, 93, 102, 1000⟩,
   ⟨101, 101, 98, 100, 1000⟩, ⟨100, 105, 96, 104, 1000⟩]

def w6A : ASignal :=
  ⟨"2-1-2", "BULLISH",
   calculate_212_confidence ⟨100, 103, 93, 102, 1000⟩ ⟨101, 101, 98, 100, 1000⟩
     ⟨100, 105, 96, 104, 1000⟩ "BULLISH",
   100, 101, 98, 101 + (103 - 93), 3, [2, 1, 2], 3,
   risk_reward_of 100 98 (101 + (103 - 93))⟩

def w6P : PatternDict :=
  ⟨"2-1-2", "long", 3, [2, 1, 2], some 2, some 101, some 98,
   some (101 + (103 - 93)), some w6A.confidence⟩

def w6Row : TfcScore := ⟨"bullish", 3, 0.8, "Partial"⟩

def w6S : GSignal :=
  ⟨3, "2-1-2", "long", 101 + TRIGGER_TOLERANCE, 98, 101 + (103 - 93),
   w6Row.confidence, "bullish", [2, 1, 2],
   generator_confidence w6Row.confidence (some w6A.confidence)
     (risk_reward_of (101 + TRIGGER_TOLERANCE) 98 (101 + (103 - 93))),
   risk_reward_of (101 + TRIGGER_TOLERANCE) 98 (101 + (103 - 93))⟩

theorem w6_analyze : analyze_212_signal w6df 3 = some w6A := rfl

theorem w6_convert : convert_analyzer_signal w6A = some w6P := rfl

theorem w6_validate :
    validate_and_create_signal w6P w6df (some w6Row) 0.5 false = some w6S := by
  have hc1 : ¬(w6Row.confidence < (0.5 : ℚ)) := by norm_num [w6Row]
  have hc2 : ¬((false = true) ∧ w6Row.confidence < (0.95 : ℚ)) := by simp
  have hc3 : ¬(¬((w6P.direction = "long") =
      (w6Row.direction = "bullish" ∨ w6Row.direction = "bullish_strong")) ∧
      w6Row.direction ≠ "mixed") := by
    simp [w6P, w6Row]
  have hcp : compute_signal_prices w6P w6df =
      some (101 + TRIGGER_TOLERANCE, 98, 101 + (103 - 93)) := rfl
  have hrr : ¬(risk_reward_of (101 + TRIGGER_TOLERANCE) 98
      (101 + (103 - 93)) < 1) := by
    norm_num [risk_reward_of, TRIGGER_TOLERANCE, abs]
  unfold validate_and_create_signal
  simp only []
  rw [if_neg hc1, if_neg hc2, if_neg hc3, hcp]
  simp only []
  rw [if_neg hrr]
  rfl

theorem trigger_price_offset_from_inside_bar_witness :
    w6S.trigger_price = (101 : ℚ) + TRIGGER_TOLERANCE :=
  (trigger_price_offset_from_inside_bar w6df 3 w6A w6P w6S w6Row 0.5 false
    ⟨101, 101, 98, 100, 1000⟩ (Or.inl w6_analyze) w6_convert w6_validate
    rfl).1 rfl

end Atlas

namespace Atlas

/-!  Rev STRAT detection (`STRATAnalyzer._analyze_rev_strat_signal`,
src/core/analyzer.py lines 676-810; `_validate_rev_strat_continuity`,
lines 812-859; `_detect_post_312_rev_strats`, lines 419-519;
`detect_rev_strat_pattern`, lines 375-417). -/

/-- `STRATAnalyzer._validate_rev_strat_continuity`: bar 4's candle must
agree with the reversal direction (close above open for bullish, below
for bearish). -/
def validate_rev_strat_continuity (direction : String) (bar4 : Bar) : Bool :=
  if direction = "BULLISH" then decide (bar4.close > bar4.open_)
  else decide (bar4.close < bar4.open_)

/-- `STRATAnalyzer._analyze_rev_strat_signal`: the 4-bar [2|3]-1-2-2
structure check, the failed-breakout tests, and the continuity
validation (the source builds the signal first and discards it when
continuity fails; the checks are sequenced identically here). -/
def analyze_rev_strat_signal (df : List Bar) (current_index : Nat)
    (classes : List Int) : Option ASignal :=
  if current_index < 3 then none
  else
    match df.get? (current_index - 3), df.get? (current_index - 2),
        df.get? (current_index - 1), df.get? current_index,
        classes.get? (current_index - 3), classes.get? (current_index - 2),
        classes.get? (current_index - 1), classes.get? current_index with
    | some bar1, some bar2, some bar3, some bar4,
      some class1, some class2, some class3, some class4 =>
      if class1 = 1 then none
      else if ¬((class1 = 2 ∨ class1 = 3) ∧ class2 = 1 ∧ class3 = 2 ∧
          class4 = 2) then none
      else if bar3.high > bar1.high ∧ bar4.low < bar2.low then
        if bar3.high > bar2.high ∧ bar3.high < bar1.high then
          if validate_rev_strat_continuity "BEARISH" bar4 = true then
            some ⟨"Rev STRAT", "BEARISH", rev_strat_confidence class1,
              bar3.low - 0.01, bar3.low, bar3.high, bar1.low,
              current_index, [class1, class2, class3, class4],
              current_index,
              risk_reward_of (bar3.low - 0.01) bar3.high bar1.low⟩
          else none
        else none
      else if bar3.low < bar1.low ∧ bar4.high > bar2.high then
        if bar3.low < bar2.low ∧ bar3.low > bar1.low then
          if validate_rev_strat_continuity "BULLISH" bar4 = true then
            some ⟨"Rev STRAT", "BULLISH", rev_strat_confidence class1,
              bar3.high + 0.01, bar3.high, bar3.low, bar1.high,
              current_index, [class1, class2, class3, class4],
              current_index,
              risk_reward_of (bar3.high + 0.01) bar3.low bar1.high⟩
          else none
        else none
      else none
    | _, _, _, _, _, _, _, _ => none

/-- One iteration of the `_detect_post_312_rev_strats` loop: fires on a
3-1-2 classification window followed by a 2, with the breaks of bars 3
and 4 measured against the inside bar (bar 2).  No candle/continuity
check is performed on this path. -/
def post_312_at (df : List Bar) (classes : List Int) (i : Nat) :
    Option ASignal :=
  if (classes.drop (i - 3)).take 3 = [3, 1, 2] ∧ classes.get? i = some 2 then
    match df.get? (i - 3), df.get? (i - 2), df.get? (i - 1), df.get? i with
    | some bar1, some bar2, some bar3, some bar4 =>
      if (bar3.high > bar2.high ∧ bar3.low ≥ bar2.low) ∧
          (bar4.low < bar2.low ∧ bar4.high ≤ bar2.high) ∨
         (bar3.low < bar2.low ∧ bar3.high ≤ bar2.high) ∧
          (bar4.high > bar2.high ∧ bar4.low ≥ bar2.low) then
        if (bar3.low < bar2.low ∧ bar3.high ≤ bar2.high) ∧
            (bar4.high > bar2.high ∧ bar4.low ≥ bar2.low) then
          if bar3.low > bar1.low then
            some ⟨"Rev STRAT", "BULLISH", post312_confidence,
              bar3.high + 0.01, bar3.high, bar3.low, bar1.high, i,
              [3, 1, 2, 2], i,
              risk_reward_of (bar3.high + 0.01) bar3.low bar1.high⟩
          else none
        else if (bar3.high > bar2.high ∧ bar3.low ≥ bar2.low) ∧
            (bar4.low < bar2.low ∧ bar4.high ≤ bar2.high) then
          if bar3.high < bar1.high then
            some ⟨"Rev STRAT", "BEARISH", post312_confidence,
              bar3.low - 0.01, bar3.low, bar3.high, bar1.low, i,
              [3, 1, 2, 2], i,
              risk_reward_of (bar3.low - 0.01) bar3.high bar1.low⟩
          else none
        else none
      else none
    | _, _, _, _ => none
  else none

/-- `STRATAnalyzer._detect_post_312_rev_strats`. -/
def detect_post_312_rev_strats (df : List Bar) (classes : List Int) :
    List ASignal :=
  if df.length < 4 then []
  else ((List.range df.length).drop 3).filterMap (post_312_at df classes)

/-- The main loop of `detect_rev_strat_pattern` (lines 399-408):
`range(max(4, n - min(10, n - 4)), n)`.  Deduplication only removes
elements from this list and is threaded by the caller, so it is not
modelled here; the claims are universally quantified over the emitted
list. -/
def detect_rev_strat_main (df : List Bar) (classes : List Int) :
    List ASignal :=
  ((List.range df.length).drop
      (max 4 (df.length - min 10 (df.length - 4)))).filterMap
    (fun i => analyze_rev_strat_signal df i classes)

/-- `STRATAnalyzer.detect_rev_strat_pattern`: empty below 5 bars, else
the main scan plus the post-3-1-2 scan. -/
def detect_rev_strat_pattern (df : List Bar) (classes : List Int) :
    List ASignal :=
  if df.length < 5 then []
  else detect_rev_strat_main df classes ++ detect_post_312_rev_strats df classes

end Atlas

namespace Atlas

theorem classifyStep_up (gh gl : ℚ) (b : Bar)
    (h : (classifyStep gh gl b).1 = 2) : b.high > gh := by
  unfold classifyStep at h
  split_ifs at h with h1 h2 h3 h4
  · simp at h
  · simp at h
  · exact h3
  · simp at h
  · simp at h

/-- The main Rev STRAT analyzer can never emit: its bearish branch
requires `bar3.high > bar1.high` (the branch guard) and
`bar3.high < bar1.high` (the failed-target test) at once, and the
bullish branch requires `bar3.low < bar1.low` and `bar3.low > bar1.low`
at once. -/
theorem analyze_rev_strat_never_fires (df : List Bar) (i : Nat)
    (classes : List Int) :
    analyze_rev_strat_signal df i classes = none := by
  unfold analyze_rev_strat_signal
  split_ifs with h0
  · rfl
  · cases hb1 : df.get? (i - 3) with
    | none => rfl
    | some bar1 =>
      cases hb2 : df.get? (i - 2) with
      | none => rfl
      | some bar2 =>
        cases hb3 : df.get? (i - 1) with
        | none => rfl
        | some bar3 =>
          cases hb4 : df.get? i with
          | none => rfl
          | some bar4 =>
            cases hc1 : classes.get? (i - 3) with
            | none => rfl
            | some class1 =>
              cases hc2 : classes.get? (i - 2) with
              | none => rfl
              | some class2 =>
                cases hc3 : classes.get? (i - 1) with
                | none => rfl
                | some class3 =>
                  cases hc4 : classes.get? i with
                  | none => rfl
                  | some class4 =>
                    simp only []
                    split_ifs with g1 g2 g3 g4 g5 g6 g7 g8 <;> try rfl
                    · exact absurd g4.2 (not_lt.mpr (le_of_lt g3.1))
                    · exact absurd g7.2 (not_lt.mpr (le_of_lt g6.1))

end Atlas

namespace Atlas

theorem classify_bars_get (b0 : Bar) (rest : List Bar) (j : Nat) (c : Int)
    (hj : 1 ≤ j) (h : (classify_bars (b0 :: rest)).get? j = some c) :
    ∃ e, (classifyTrace b0.high b0.low rest).get? (j - 1) = some e ∧
      e.cls = c := by
  unfold classify_bars at h
  split_ifs at h with hlen
  · exfalso
    cases j <;> exact Option.noConfusion h
  · obtain ⟨k, rfl⟩ : ∃ k, j = k + 1 := ⟨j - 1, by omega⟩
    simp only [List.get?] at h
    rw [classifyAux_eq_trace, List.get?_map] at h
    cases he : (classifyTrace b0.high b0.low rest).get? k with
    | none => rw [he] at h; cases h
    | some e =>
      rw [he] at h
      refine ⟨e, ?_, Option.some.inj h⟩
      rw [Nat.add_sub_cancel]
      exact he

theorem drop_take_three (l : List Int) (n : Nat) (a b c : Int)
    (h : (l.drop n).take 3 = [a, b, c]) :
    l.get? n = some a ∧ l.get? (n + 1) = some b ∧ l.get? (n + 2) = some c := by
  have key : ∀ k : Nat, k < 3 → l.get? (n + k) = ([a, b, c] : List Int).get? k := by
    intro k hk
    rw [← List.get?_drop, ← List.get?_take hk, h]
  refine ⟨?_, ?_, ?_⟩
  · have := key 0 (by norm_num)
    simpa using this
  · exact key 1 (by norm_num)
  · exact key 2 (by norm_num)

theorem classify_head (b0 : Bar) (b1 : Bar) (rest2 : List Bar) :
    (classify_bars (b0 :: b1 :: rest2)).get? 0 = some (-999) := by
  unfold classify_bars
  rw [if_neg (by simp only [List.length_cons]; omega)]
  rfl

/-- Under classifier-consistent classifications the post-3-1-2 Rev STRAT
scan finds nothing: a bar classified 2 after a 3-1 prefix has broken the
outside bar's high, so neither "bar 3 breaks down out of the inside bar"
nor "bar 4 breaks down out of the inside bar" can hold. -/
theorem post_312_at_classifier_none (df : List Bar) (i : Nat) :
    post_312_at df (classify_bars df) i = none := by
  unfold post_312_at
  split_ifs with hg
  · obtain ⟨htake, hgi⟩ := hg
    obtain ⟨hc1, hc2, hc3⟩ := drop_take_three _ _ 3 1 2 htake
    rcases df with _ | ⟨b0, _ | ⟨b1, rest2⟩⟩
    · exfalso
      rw [show classify_bars [] = [] from rfl] at hc1
      cases (i - 3) <;> exact Option.noConfusion hc1
    · exfalso
      rw [show classify_bars [b0] = [] from rfl] at hc1
      cases (i - 3) <;> exact Option.noConfusion hc1
    · by_cases hi4 : 4 ≤ i
      · have hidx2 : i - 3 + 1 = i - 2 := by omega
        have hidx3 : i - 3 + 2 = i - 1 := by omega
        rw [hidx2] at hc2
        rw [hidx3] at hc3
        obtain ⟨e1, he1, hcls1⟩ :=
          classify_bars_get b0 (b1 :: rest2) (i - 3) 3 (by omega) hc1
        obtain ⟨e2, he2, hcls2⟩ :=
          classify_bars_get b0 (b1 :: rest2) (i - 2) 1 (by omega) hc2
        obtain ⟨e3, he3, hcls3⟩ :=
          classify_bars_get b0 (b1 :: rest2) (i - 1) 2 (by omega) hc3
        obtain ⟨e4, he4, hcls4⟩ :=
          classify_bars_get b0 (b1 :: rest2) i 2 (by omega) hgi
        cases hb1 : (b0 :: b1 :: rest2).get? (i - 3) with
        | none => rfl
        | some bar1 =>
          cases hb2 : (b0 :: b1 :: rest2).get? (i - 2) with
          | none => rfl
          | some bar2 =>
            cases hb3 : (b0 :: b1 :: rest2).get? (i - 1) with
            | none => rfl
            | some bar3 =>
              cases hb4 : (b0 :: b1 :: rest2).get? i with
              | none => rfl
              | some bar4 =>
                -- bars seen through the tail of the cons
                have hr1 : (b1 :: rest2).get? (i - 3 - 1) = some bar1 := by
                  rw [show i - 3 = (i - 3 - 1) + 1 by omega] at hb1
                  exact hb1
                have hr2 : (b1 :: rest2).get? (i - 2 - 1) = some bar2 := by
                  rw [show i - 2 = (i - 2 - 1) + 1 by omega] at hb2
                  exact hb2
                have hr3 : (b1 :: rest2).get? (i - 1 - 1) = some bar3 := by
                  rw [show i - 1 = (i - 1 - 1) + 1 by omega] at hb3
                  exact hb3
                have hr4 : (b1 :: rest2).get? (i - 1) = some bar4 := by
                  rw [show i = (i - 1) + 1 by omega] at hb4
                  exact hb4
                obtain ⟨hs1, hs1h, hs1l⟩ :=
                  classifyTrace_spec (b1 :: rest2) b0.high b0.low
                    (i - 3 - 1) bar1 e1 hr1 he1
                obtain ⟨hs2, hs2h, hs2l⟩ :=
                  classifyTrace_spec (b1 :: rest2) b0.high b0.low
                    (i - 2 - 1) bar2 e2 hr2 he2
                obtain ⟨hs3, hs3h, hs3l⟩ :=
                  classifyTrace_spec (b1 :: rest2) b0.high b0.low
                    (i - 1 - 1) bar3 e3 hr3 he3
                obtain ⟨hs4, hs4h, hs4l⟩ :=
                  classifyTrace_spec (b1 :: rest2) b0.high b0.low
                    (i - 1) bar4 e4 hr4 he4
                -- governing-range chaining
                have hch12 := classifyTrace_chain (b1 :: rest2) b0.high b0.low
                  (i - 3 - 1) e1 e2 he1
                  (by rw [show i - 3 - 1 + 1 = i - 2 - 1 by omega]; exact he2)
                have hch23 := classifyTrace_chain (b1 :: rest2) b0.high b0.low
                  (i - 2 - 1) e2 e3 he2
                  (by rw [show i - 2 - 1 + 1 = i - 1 - 1 by omega]; exact he3)
                have hch34 := classifyTrace_chain (b1 :: rest2) b0.high b0.low
                  (i - 1 - 1) e3 e4 he3
                  (by rw [show i - 1 - 1 + 1 = i - 1 by omega]; exact he4)
                -- e1 is not Inside: the range after bar1 is bar1's range
                have he1after : e1.afterHigh = bar1.high := by
                  have hne : (classifyStep e1.beforeHigh e1.beforeLow bar1).1 ≠ 1 := by
                    rw [← hs1, hcls1]
                    decide
                  have := classifyStep_update_range e1.beforeHigh e1.beforeLow bar1 hne
                  rw [hs1h]
                  exact this.1
                -- bar2 is inside the bar1 range
                have hbar2le : bar2.high ≤ bar1.high := by
                  have hin := (classifyStep_inside_iff e2.beforeHigh e2.beforeLow bar2).mp
                    (by rw [← hs2, hcls2])
                  have : e2.beforeHigh = bar1.high := by
                    rw [hch12.1, he1after]
                  rw [← this]
                  exact hin.1
                have he2after : e2.afterHigh = bar1.high := by
                  have hin : (classifyStep e2.beforeHigh e2.beforeLow bar2).1 = 1 := by
                    rw [← hs2, hcls2]
                  have := classifyStep_inside_range e2.beforeHigh e2.beforeLow bar2 hin
                  rw [hs2h, this.1, hch12.1, he1after]
                -- bar3 breaks above bar1's high
                have hbar3gt : bar3.high > bar1.high := by
                  have hup := classifyStep_up e3.beforeHigh e3.beforeLow bar3
                    (by rw [← hs3, hcls3])
                  have : e3.beforeHigh = bar1.high := by
                    rw [hch23.1, he2after]
                  rw [← this]
                  exact hup
                have he3after : e3.afterHigh = bar3.high := by
                  have hne : (classifyStep e3.beforeHigh e3.beforeLow bar3).1 ≠ 1 := by
                    rw [← hs3, hcls3]
                    decide
                  have := classifyStep_update_range e3.beforeHigh e3.beforeLow bar3 hne
                  rw [hs3h]
                  exact this.1
                -- bar4 breaks above bar3's high
                have hbar4gt : bar4.high > bar3.high := by
                  have hup := classifyStep_up e4.beforeHigh e4.beforeLow bar4
                    (by rw [← hs4, hcls4])
                  have : e4.beforeHigh = bar3.high := by
                    rw [hch34.1, he3after]
                  rw [← this]
                  exact hup
                -- both break patterns require a high at or below bar2's high
                simp only []
                rw [if_neg]
                rintro (⟨_, _, hA⟩ | ⟨⟨_, hB⟩, _⟩)
                · linarith
                · linarith
      · exfalso
        have : i - 3 = 0 := by omega
        rw [this] at hc1
        rw [classify_head] at hc1
        exact absurd (Option.some.inj hc1) (by decide)
  · rfl

end Atlas

namespace Atlas

/-- C7 (code bug).  The Rev STRAT detection paths cannot emit any
candidate, so the bar-4 candle ("continuity restored") check is dead
code: the main analyzer's failed-breakout test is contradictory for
every input (it requires bar3.high > bar1.high and bar3.high < bar1.high
at once, resp. bar3.low < bar1.low and bar3.low > bar1.low), and the
post-3-1-2 scan is unsatisfiable for classifier-consistent
classifications.  `detect_rev_strat_pattern` run on its own classifier's
output is always empty, contradicting the detector's documented intent
of emitting rev-strat candidates whose bar-4 candle agrees with the
reversal. -/
theorem rev_strat_paths_emit_nothing (df : List Bar) (i : Nat)
    (classes : List Int) :
    analyze_rev_strat_signal df i classes = none ∧
    detect_rev_strat_pattern df (classify_bars df) = [] := by
  constructor
  · exact analyze_rev_strat_never_fires df i classes
  · unfold detect_rev_strat_pattern
    split_ifs with h
    · rfl
    · have hmain : detect_rev_strat_main df (classify_bars df) = [] := by
        unfold detect_rev_strat_main
        apply List.filterMap_eq_nil.mpr
        intro a _
        exact analyze_rev_strat_never_fires df a _
      have hpost : detect_post_312_rev_strats df (classify_bars df) = [] := by
        unfold detect_post_312_rev_strats
        split_ifs with h4
        · rfl
        · apply List.filterMap_eq_nil.mpr
          intro a _
          exact post_312_at_classifier_none df a
      rw [hmain, hpost]
      rfl

end Atlas
